import Mathlib

/-!
Shallow embedding of the `UFrame` client library (`UFrame/__init__.py`) for
verifying the natural-language specification against the code.

Modelling conventions, used throughout:

* Python `datetime.datetime` values are embedded as the `DateTime` structure
  below; comparison of datetimes is modelled through `toUs` (microseconds on
  the proleptic-Gregorian timeline), which agrees with Python's
  field-lexicographic comparison on every datetime whose fields are in range
  (all datetimes produced by the parser or by arithmetic are).
* `dateutil.parser.parse` on a catalog string is not re-implemented; a catalog
  timestamp is embedded as a `TStamp`: the raw string together with the result
  of parsing it (`none` models a `ValueError`).  Every claim depends only on
  whether the parse succeeds and on the parsed instant.
* Python truthiness of optional values is modelled by `truthyStr`/`truthyInt`
  (`None`, `""` and `0` are falsy).
* `sys.stderr` diagnostics carry no data flow; they are dropped.  Failure
  modes are kept: a caught-and-returned failure and an uncaught exception
  (`KeyError` on a missing dictionary key, modelled by `Option` fields and
  `require`) are distinguished where the code distinguishes them.
-/

/-- Python 2 `datetime.datetime` value (naive, microsecond precision). -/
structure DateTime where
  y : Int
  mo : Nat
  d : Nat
  h : Nat
  mi : Nat
  s : Nat
  us : Nat
deriving DecidableEq

def usPerDay : Int := 86400000000

def isLeap (y : Int) : Bool :=
  Int.emod y 400 == 0 || (Int.emod y 4 == 0 && Int.emod y 100 != 0)

def daysInMonth (y : Int) (mo : Nat) : Nat :=
  if mo == 2 then (if isLeap y then 29 else 28)
  else if mo == 4 || mo == 6 || mo == 9 || mo == 11 then 30 else 31

/-- Day count from civil date (days since 1970-01-01, proleptic Gregorian). -/
def daysFromCivil (y : Int) (mo d : Nat) : Int :=
  let y' : Int := if mo ≤ 2 then y - 1 else y
  let era : Int := Int.ediv y' 400
  let yoe : Int := y' - era * 400
  let mp : Int := if mo > 2 then (mo : Int) - 3 else (mo : Int) + 9
  let doy : Int := Int.ediv (153 * mp + 2) 5 + (d : Int) - 1
  let doe : Int := yoe * 365 + Int.ediv yoe 4 - Int.ediv yoe 100 + doy
  era * 146097 + doe - 719468

/-- Civil date from day count (inverse of `daysFromCivil`). -/
def civilFromDays (z0 : Int) : Int × Nat × Nat :=
  let z := z0 + 719468
  let era := Int.ediv z 146097
  let doe := z - era * 146097
  let yoe := Int.ediv (doe - Int.ediv doe 1460 + Int.ediv doe 36524 - Int.ediv doe 146096) 365
  let y := yoe + era * 400
  let doy := doe - (365 * yoe + Int.ediv yoe 4 - Int.ediv yoe 100)
  let mp := Int.ediv (5 * doy + 2) 153
  let d := doy - Int.ediv (153 * mp + 2) 5 + 1
  let mo := if mp < 10 then mp + 3 else mp - 9
  (if mo ≤ 2 then y + 1 else y, mo.toNat, d.toNat)

/-- Instant on the timeline, in microseconds since 1970-01-01T00:00:00. -/
def toUs (t : DateTime) : Int :=
  daysFromCivil t.y t.mo t.d * usPerDay
    + (((t.h * 3600 + t.mi * 60 + t.s) * 1000000 + t.us : Nat) : Int)

def fromUs (x : Int) : DateTime :=
  let day := Int.ediv x usPerDay
  let rem := (Int.emod x usPerDay).toNat
  let c := civilFromDays day
  { y := c.1, mo := c.2.1, d := c.2.2,
    h := rem / 3600000000, mi := rem % 3600000000 / 60000000,
    s := rem % 60000000 / 1000000, us := rem % 1000000 }

/-- Fixed-width zero-padded decimal rendering (as `strftime` field output). -/
def padNumAux : Nat → Nat → List Char → List Char
  | 0, _, acc => acc
  | w + 1, n, acc => padNumAux w (n / 10) (Char.ofNat (48 + n % 10) :: acc)

def padNum (w n : Nat) : String := String.mk (padNumAux w n [])

/-- Unpadded decimal rendering of a natural number (at most 20 digits, ample
for every value in range here). -/
def natDecAux : Nat → Nat → List Char
  | 0, _ => []
  | fuel + 1, n =>
    if n < 10 then [Char.ofNat (48 + n)]
    else natDecAux fuel (n / 10) ++ [Char.ofNat (48 + n % 10)]

def natDec (n : Nat) : String := String.mk (natDecAux 20 n)

/-- Python `'{:d}'.format(i)`. -/
def intDec (i : Int) : String :=
  if i < 0 then "-" ++ natDec (-i).toNat else natDec i.toNat

/-- Python whitespace set for `str.strip()`. -/
def isPyWs (c : Char) : Bool :=
  c == ' ' || c == '\t' || c == '\n' || c == '\r' || c == '\x0b' || c == '\x0c'

/-- `url.strip()`. -/
def pyStrip (s : String) : String :=
  String.mk (((s.data.dropWhile isPyWs).reverse.dropWhile isPyWs).reverse)

/-- `s.lower()` (ASCII). -/
def pyLower (s : String) : String :=
  String.mk (s.data.map (fun c => if 'A' ≤ c && c ≤ 'Z' then Char.ofNat (c.toNat + 32) else c))

/-- `dt.strftime('%Y-%m-%dT%H:%M:%S.%fZ')`.  Python 2's `strftime` raises
`ValueError` for years before 1900; that failure is the `none` case.  (Years
above 9999 cannot arise from `datetime` values.) -/
def strftimeE (t : DateTime) : Option String :=
  if t.y < 1900 then none
  else some (padNum 4 t.y.toNat ++ "-" ++ padNum 2 t.mo ++ "-" ++ padNum 2 t.d ++ "T"
    ++ padNum 2 t.h ++ ":" ++ padNum 2 t.mi ++ ":" ++ padNum 2 t.s ++ "."
    ++ padNum 6 t.us ++ "Z")

/-- The entries of the module constant `_valid_relativedeltatypes`. -/
inductive DeltaUnit
  | years | months | weeks | days | hours | minutes | seconds
deriving DecidableEq

/-- Membership test of `time_delta_type` in `_valid_relativedeltatypes`,
returning the recognised unit. -/
def parseDeltaType (s : String) : Option DeltaUnit :=
  if s == "years" then some .years
  else if s == "months" then some .months
  else if s == "weeks" then some .weeks
  else if s == "days" then some .days
  else if s == "hours" then some .hours
  else if s == "minutes" then some .minutes
  else if s == "seconds" then some .seconds
  else none

/-- `dateutil.relativedelta` month arithmetic: shift the (year, month) pair and
clamp the day to the length of the target month. -/
def addMonths (t : DateTime) (k : Int) : DateTime :=
  let tm : Int := t.y * 12 + ((t.mo : Int) - 1) + k
  let y := Int.ediv tm 12
  let mo := (Int.emod tm 12).toNat + 1
  { t with y := y, mo := mo, d := min t.d (daysInMonth y mo) }

/-- `dt - relativedelta(**{unit: v})`: years/months are calendar arithmetic
with day clamping; the remaining units are fixed-length timeline arithmetic. -/
def tdeltaUnit (t : DateTime) (u : DeltaUnit) (v : Int) : DateTime :=
  match u with
  | .years => let y := t.y - v; { t with y := y, d := min t.d (daysInMonth y t.mo) }
  | .months => addMonths t (-v)
  | .weeks => fromUs (toUs t - v * (7 * usPerDay))
  | .days => fromUs (toUs t - v * usPerDay)
  | .hours => fromUs (toUs t - v * 3600000000)
  | .minutes => fromUs (toUs t - v * 60000000)
  | .seconds => fromUs (toUs t - v * 1000000)

/-- `dt1 - tdelta(**dict({time_delta_type : time_delta_value}))` as invoked at
line 591; an unrecognised unit name cannot reach this point (the batch
preamble has already rejected it), so it is mapped to the identity. -/
def tdeltaSub (t : DateTime) (ty : String) (v : Int) : DateTime :=
  match parseDeltaType ty with
  | some u => tdeltaUnit t u v
  | none => t

/-- Python truthiness of an optional string (`None` and `""` are falsy). -/
def truthyStr : Option String → Bool
  | none => false
  | some s => !s.isEmpty

/-- Python truthiness of an optional integer (`None` and `0` are falsy). -/
def truthyInt : Option Int → Bool
  | none => false
  | some v => v != 0

/-- A catalog timestamp string together with the result of
`dateutil.parser.parse` on it (`none` models a `ValueError`). -/
structure TStamp where
  raw : String
  parsed : Option DateTime
deriving DecidableEq

/-- A stream dictionary from the table of contents.  `stream`, `method`,
`beginTime` and `endTime` are the keys the code reads; `reference_designator`,
`beginTimeEpochMs` and `endTimeEpochMs` are the keys the code itself adds to
the stored dictionary (absent, i.e. `none`, until written). -/
structure StreamRec where
  stream : String
  method : String
  beginTime : TStamp
  endTime : TStamp
  reference_designator : Option String := none
  beginTimeEpochMs : Option Int := none
  endTimeEpochMs : Option Int := none
deriving DecidableEq

/-- A parameter dictionary.  The legacy list-shaped TOC uses the key
`particleKey`; the dictionary-shaped TOC's `parameter_definitions` use
`particle_key` and `pdId`, and the fetch code adds a `stream` tag.  Fields are
`Option` so a missing key (`KeyError`) is representable. -/
structure ParamRec where
  particleKey : Option String := none
  particle_key : Option String := none
  pdId : Option Int := none
  stream : Option String := none
deriving DecidableEq

/-- An instrument record of the table of contents.  Fields are `Option` so a
missing key (`KeyError`) is representable. -/
structure InstRecord where
  reference_designator : Option String := none
  instrument_parameters : Option (List ParamRec) := none
  streams : Option (List StreamRec) := none
deriving DecidableEq

/-- The catalog portion of the `UFrame` object state: `_toc` (an
insertion-ordered association list standing for the Python dict) and the four
derived indexes. -/
structure Catalog where
  toc : List (String × InstRecord)
  instruments : List String
  parameters : List String
  streams : List String
  arrays : List String
deriving DecidableEq

/-- Python `list.sort()` on strings: ascending lexicographic (code points). -/
def strLtB : List Char → List Char → Bool
  | [], [] => false
  | [], _ :: _ => true
  | _ :: _, [] => false
  | a :: as, b :: bs => if a < b then true else if b < a then false else strLtB as bs

def insertSorted (x : String) : List String → List String
  | [] => [x]
  | y :: t => if strLtB x.data y.data || x == y then x :: y :: t else y :: insertSorted x t

def pySortStr (l : List String) : List String :=
  l.foldl (fun acc x => insertSorted x acc) []

/-- `hay.find(pat) >= 0` in Python: `pat` occurs as a substring of `hay`. -/
def containsSub (hay pat : List Char) : Bool :=
  hay.tails.any (fun t => pat.isPrefixOf t)

def strFind (hay pat : String) : Bool := containsSub hay.data pat.data

/-- `UFrame.search_instruments` (metadata=False): empty-catalog guard, then a
substring filter over the sorted identifier index. -/
def search_instruments (cat : Catalog) (target : String) : List String :=
  if cat.toc.isEmpty then []
  else cat.instruments.filter (fun r => strFind r target)

/-- `UFrame.search_streams`: same guard, substring filter over the stream index. -/
def search_streams (cat : Catalog) (target : String) : List String :=
  if cat.toc.isEmpty then []
  else cat.streams.filter (fun r => strFind r target)

/-- `\w` of the pattern (compiled without `re.UNICODE`): ASCII alphanumeric or
underscore. -/
def isWordChar (c : Char) : Bool := c.isAlphanum || c == '_'

/-- Match one `\w{min,}` token at the head: the maximal word-character run
(greedy; no shorter choice can be followed by the pattern's literal `-`, so
greediness is forced) must have length at least `min`; returns the rest. -/
def wordRun (min : Nat) (cs : List Char) : Option (List Char) :=
  if min ≤ (cs.takeWhile isWordChar).length then some (cs.dropWhile isWordChar) else none

def dashChar (l : List Char) : Option (List Char) :=
  match l with
  | [] => none
  | c :: t => if c = '-' then some t else none

/-- The regex `\w{8,}\-\w{5,}\-\w{2,}\-\w{1,}` anchored at the head of `cs`. -/
def refdesAt (cs : List Char) : Bool :=
  (do
    let r1 ← wordRun 8 cs
    let r2 ← dashChar r1
    let r3 ← wordRun 5 r2
    let r4 ← dashChar r3
    let r5 ← wordRun 2 r4
    let r6 ← dashChar r5
    let _ ← wordRun 1 r6
    pure ()).isSome

/-- `UFrame.validate_reference_designator`:
`re.compile(r'\w{8,}\-\w{5,}\-\w{2,}\-\w{1,}').search(s)` is truthy, i.e. the
pattern matches starting at some position of `s`. -/
def validate_reference_designator (s : String) : Bool :=
  s.data.tails.any refdesAt

/-- Python dictionary key access `d[k]`: a missing key raises `KeyError`. -/
def require {α : Type} : Option α → Except Unit α
  | some a => .ok a
  | none => .error ()

/-- Outcome of `_fetch_toc`, seen from the caller: `ok` (catalog replaced),
`failed` (diagnostic written, early `return`), `raised` (an uncaught
exception — `KeyError` — escaped the method). -/
inductive FetchSignal
  | ok | failed | raised
deriving DecidableEq

/-- The decoded JSON body of the TOC response: decode failure, the legacy
list shape, the newer dictionary shape, or a decodable value of any other
type (`Unknown TOC response`). -/
inductive TocBody
  | undecodable
  | list (items : List InstRecord)
  | dict (instruments : Option (List InstRecord))
      (parameter_definitions : Option (List ParamRec))
      (parameters_by_stream : Option (List (String × List Int)))
  | other
deriving DecidableEq

/-- The transport-level result of `requests.get` on the TOC endpoint. -/
inductive FetchResult
  | netErr
  | resp (status : Nat) (body : TocBody)
deriving DecidableEq

/-- Dict insertion `m[k] = v` (replace if present, else append).  Python 2
dict ordering is unspecified; an insertion-ordered association list is used
as its deterministic stand-in (no claim depends on dict iteration order). -/
def insertToc (m : List (String × InstRecord)) (k : String) (v : InstRecord) :
    List (String × InstRecord) :=
  if m.any (fun kv => kv.1 == k) then m.map (fun kv => if kv.1 == k then (k, v) else kv)
  else m ++ [(k, v)]

/-- `{i['reference_designator']:i for i in toc_response}` — raises `KeyError`
if a record lacks the key, before anything is assigned to `self`. -/
def mkToc (items : List InstRecord) : Except Unit (List (String × InstRecord)) :=
  items.foldlM (fun m i => do
    let rd ← require i.reference_designator
    pure (insertToc m rd i)) []

/-- The legacy-branch loops building `parameters` and `streams`
(lines 889-908).  The streams loop reproduces the source exactly: on the very
first stream the `if not streams` arm appends and then falls through to the
unconditional append, so the first stream name is appended twice. -/
def legacyParamsStreams (items : List InstRecord) :
    Except Unit (List String × List String) :=
  items.foldlM (fun acc i => do
    let ps0 ← require i.instrument_parameters
    let ps ← ps0.foldlM (fun ps p => do
      let k ← require p.particleKey
      if ps.isEmpty then pure (ps ++ [k])
      else if ps.contains k then pure ps
      else pure (ps ++ [k])) acc.1
    let sl ← require i.streams
    let ss := sl.foldl (fun ss s =>
      if ss.isEmpty then (ss ++ [s.stream]) ++ [s.stream]
      else if ss.contains s.stream then ss
      else ss ++ [s.stream]) acc.2
    pure (ps, ss)) ([], [])

def firstToken (s : String) : String :=
  String.mk (s.data.takeWhile (fun c => c ≠ '-'))

def dedupStr (l : List String) : List String :=
  l.foldl (fun acc x => if acc.contains x then acc else acc ++ [x]) []

/-- `{t.split('-')[0]:True for t in self._toc.keys()}.keys()`, sorted. -/
def tocArrays (toc : List (String × InstRecord)) : List String :=
  pySortStr (dedupStr (toc.map (fun kv => firstToken kv.1)))

def tocKeysSorted (toc : List (String × InstRecord)) : List String :=
  pySortStr (toc.map (fun kv => kv.1))

/-- `_fetch_toc`, legacy list-shaped body (lines 880-908 then 947-957).
The assignment order of the source is kept: `_toc` and `_instruments` are
replaced first, so a `KeyError` in the parameter/stream loops escapes with
those two already updated and the other indexes stale. -/
def fetchList (st : Catalog) (items : List InstRecord) : Catalog × FetchSignal :=
  match mkToc items with
  | .error _ => (st, .raised)
  | .ok toc0 =>
    let st1 := { st with toc := toc0, instruments := tocKeysSorted toc0 }
    match legacyParamsStreams items with
    | .error _ => (st1, .raised)
    | .ok (params, streams) =>
      ({ st1 with
          parameters := pySortStr params
          streams := pySortStr streams
          arrays := tocArrays toc0 }, .ok)

def lookupAssocP (m : List (Int × ParamRec)) (k : Int) : Option ParamRec :=
  match m.find? (fun kv => kv.1 == k) with
  | some kv => some kv.2
  | none => none

def insertAssocP (m : List (Int × ParamRec)) (k : Int) (v : ParamRec) :
    List (Int × ParamRec) :=
  if m.any (fun kv => kv.1 == k) then m.map (fun kv => if kv.1 == k then (k, v) else kv)
  else m ++ [(k, v)]

/-- `{p['pdId']:p for p in toc_response['parameter_definitions']}`. -/
def mkParamDefs (pdefs : List ParamRec) : Except Unit (List (Int × ParamRec)) :=
  pdefs.foldlM (fun m q => do
    let pid ← require q.pdId
    pure (insertAssocP m pid q)) []

/-- The `stream_defs` loop (lines 922-928): for each stream, look every pdId
up in `param_defs` (a missing id raises `KeyError`) and tag the definition
record with the stream name.  The tagging mutates the shared definition
dictionaries, so a definition referenced by several streams ends up tagged
with the last such stream in iteration order; the returned map carries those
final tags, and the id lists stand for the aliased `stream_defs` values. -/
def buildStreamDefs (pdm : List (Int × ParamRec)) (pbs : List (String × List Int)) :
    Except Unit (List (Int × ParamRec) × List (String × List Int)) :=
  pbs.foldlM (fun acc kv => do
    let _ ← kv.2.mapM (fun pid => require (lookupAssocP acc.1 pid))
    let m := kv.2.foldl
      (fun m pid => m.map (fun e => if e.1 == pid then (e.1, { e.2 with stream := some kv.1 }) else e))
      acc.1
    pure (m, acc.2 ++ [kv])) (pdm, [])

/-- `[p['particle_key'] for p in toc_response['parameter_definitions']]` —
the first record without the key raises `KeyError`. -/
def particleKeys : List ParamRec → Except Unit (List String)
  | [] => .ok []
  | q :: t => do
    let k ← require q.particle_key
    let r ← particleKeys t
    pure (k :: r)

def lookupAssocS (m : List (String × List Int)) (k : String) : Option (List Int) :=
  match m.find? (fun kv => kv.1 == k) with
  | some kv => some kv.2
  | none => none

/-- Lines 933-935 for the streams of one instrument: set each stream's
`reference_designator`, then append `stream_defs[s['stream']]` to the
instrument's parameter list; a missing `stream_defs` key raises with the
already-processed prefix mutated.  Returns (streams as stored back, collected
parameters, raised?). -/
def annotateStreamsD (name : String) (sdefs : List (String × List Int))
    (pdm : List (Int × ParamRec)) :
    List StreamRec → List StreamRec × List ParamRec × Bool
  | [] => ([], [], false)
  | s :: t =>
    let s' := { s with reference_designator := some name }
    match lookupAssocS sdefs s.stream with
    | none => (s' :: t, [], true)
    | some ids =>
      let ps := ids.map (fun pid => (lookupAssocP pdm pid).getD {})
      let r := annotateStreamsD name sdefs pdm t
      (s' :: r.1, ps ++ r.2.1, r.2.2)

/-- Lines 931-935 for one instrument record: `instrument_parameters` is reset
to `[]` first, then built up stream by stream. -/
def annotateInstD (name : String) (r : InstRecord) (sdefs : List (String × List Int))
    (pdm : List (Int × ParamRec)) : InstRecord × Bool :=
  let r0 := { r with instrument_parameters := some [] }
  match r0.streams with
  | none => (r0, true)
  | some sl =>
    let a := annotateStreamsD name sdefs pdm sl
    ({ r0 with streams := some a.1, instrument_parameters := some a.2.1 }, a.2.2)

/-- The loop over `self._toc.keys()` (lines 931-935); on a raise the suffix of
the table is left untouched. -/
def annotateTocD (sdefs : List (String × List Int)) (pdm : List (Int × ParamRec)) :
    List (String × InstRecord) → List (String × InstRecord) × Bool
  | [] => ([], false)
  | (k, r) :: t =>
    let a := annotateInstD k r sdefs pdm
    if a.2 then ((k, a.1) :: t, true)
    else
      let rest := annotateTocD sdefs pdm t
      ((k, a.1) :: rest.1, rest.2)

/-- `_fetch_toc`, dictionary-shaped body (lines 909-940 then 947-957), with
the source's assignment order: `_toc`/`_instruments` first, then the
parameter-definition join, then the in-place annotation of the stored
records, then the remaining indexes. -/
def fetchDict (st : Catalog) (instruments : Option (List InstRecord))
    (pdefs? : Option (List ParamRec)) (pbs? : Option (List (String × List Int))) :
    Catalog × FetchSignal :=
  match instruments with
  | none => (st, .raised)
  | some insts =>
    match mkToc insts with
    | .error _ => (st, .raised)
    | .ok toc0 =>
      let st1 := { st with toc := toc0, instruments := tocKeysSorted toc0 }
      match pdefs? with
      | none => (st1, .raised)
      | some pdefs =>
        match mkParamDefs pdefs with
        | .error _ => (st1, .raised)
        | .ok pdm =>
          match pbs? with
          | none => (st1, .raised)
          | some pbs =>
            match buildStreamDefs pdm pbs with
            | .error _ => (st1, .raised)
            | .ok (pdm', sdefs) =>
              let a := annotateTocD sdefs pdm' st1.toc
              if a.2 then ({ st1 with toc := a.1 }, .raised)
              else
                let st2 := { st1 with toc := a.1 }
                match particleKeys pdefs with
                | .error _ => (st2, .raised)
                | .ok names =>
                  ({ st2 with
                      parameters := pySortStr names
                      streams := pySortStr (sdefs.map (fun kv => kv.1))
                      arrays := tocArrays a.1 }, .ok)

/-- `UFrame._fetch_toc`.  A transport error and a JSON decode error are
caught and written to stderr with an early return (signal `failed`, catalog
untouched): their diagnostics format `e.message`, which Python 2 exceptions
do have.  A decoded body of unknown type is likewise a caught early return.
A non-success status, however, raises: its diagnostic at line 868 formats
`r.message`, an attribute `requests.Response` does not have (elsewhere the
code uses `r.reason`), so the branch raises `AttributeError` past the method
— with the catalog untouched, since nothing has been assigned yet.  List and
dictionary bodies are flattened, with `KeyError` escapes modelled by signal
`raised`. -/
def fetch_toc (st : Catalog) (r : FetchResult) : Catalog × FetchSignal :=
  match r with
  | .netErr => (st, .failed)
  | .resp status body =>
    if status ≠ 200 then (st, .raised)
    else
      match body with
      | .undecodable => (st, .failed)
      | .other => (st, .failed)
      | .list items => fetchList st items
      | .dict insts pdefs pbs => fetchDict st insts pdefs pbs

def lookupToc (m : List (String × InstRecord)) (k : String) : Option InstRecord :=
  match m.find? (fun kv => kv.1 == k) with
  | some kv => some kv.2
  | none => none

/-- In-place update of one entry of `self._toc` (keys unchanged). -/
def updateToc (m : List (String × InstRecord)) (k : String)
    (f : InstRecord → InstRecord) : List (String × InstRecord) :=
  m.map (fun kv => if kv.1 == k then (kv.1, f kv.2) else kv)

/-- `int(time.mktime(dt.timetuple()))*1000`: whole seconds (the `timetuple`
drops microseconds) times 1000.  `mktime` interprets the tuple in the local
timezone; the embedding evaluates it at UTC, the claims depend only on the
field being written, not on its offset. -/
def epochMs (t : DateTime) : Int :=
  Int.ediv (toUs t) 1000000 * 1000

/-- The per-stream body of `instrument_to_streams` (lines 426-459): the
stream dictionary stored in the catalog is mutated (`reference_designator`
is set, and on successful parses the epoch fields are reset and then
written), and the mutated dictionary is appended to the result only when
both timestamps parse.  Returns (record as stored back, appended record). -/
def annotateStream (inst : String) (s : StreamRec) : StreamRec × Option StreamRec :=
  let s1 := { s with reference_designator := some inst }
  match s1.beginTime.parsed with
  | none => (s1, none)
  | some d0 =>
    match s1.endTime.parsed with
    | none => (s1, none)
    | some d1 =>
      let s2 := { s1 with beginTimeEpochMs := none, endTimeEpochMs := none }
      let s3 := { s2 with
          endTimeEpochMs := some (epochMs d1)
          beginTimeEpochMs := some (epochMs d0) }
      (s3, some s3)

/-- One instrument of the `instrument_to_streams` loop: fetch its record,
annotate every stream, store the annotated list back into the catalog, and
collect the appended records.  (A key missing from `_toc` or a record without
a `streams` key would raise `KeyError`; unreachable for identifiers coming
from the index, modelled as a skip.) -/
def itsStep (acc : Catalog × List StreamRec) (inst : String) : Catalog × List StreamRec :=
  match lookupToc acc.1.toc inst with
  | none => acc
  | some rec =>
    match rec.streams with
    | none => acc
    | some sl =>
      let annotated := sl.map (annotateStream inst)
      let newToc := updateToc acc.1.toc inst
        (fun r => { r with streams := some (annotated.map (fun p => p.1)) })
      ({ acc.1 with toc := newToc }, acc.2 ++ annotated.filterMap (fun p => p.2))

/-- `UFrame.instrument_to_streams`: resolve the (partial) reference
designator through the matcher, then annotate and collect the streams of
every matched instrument.  The catalog is returned because the source
mutates the stream dictionaries it holds. -/
def instrument_to_streams (cat : Catalog) (rd : String) : Catalog × List StreamRec :=
  (search_instruments cat rd).foldl itsStep (cat, [])

/-- The keyword arguments of `instrument_to_query` that the code reads.
(`annotations` is accepted by the source but never used.)  `begin_ts` and
`end_ts` are timestamp strings, carried with their parse result. -/
structure QueryOpts where
  stream : Option String := none
  telemetry : Option String := none
  time_delta_type : Option String := none
  time_delta_value : Option Int := none
  begin_ts : Option TStamp := none
  end_ts : Option TStamp := none
  time_check : Bool := true
  exec_dpa : Bool := true
  application_type : String := "netcdf"
  provenance : Bool := true
  limit : Int := -1
  user : String := "_nouser"
  email : Option String := none
  selogging : Bool := false
deriving DecidableEq

def pyBool (b : Bool) : String := if b then "true" else "false"

/-- Lines 589-601: choose the window start/end.  When both `time_delta_type`
and `time_delta_value` are truthy the window is
`[stream_dt1 - tdelta, stream_dt1]`; otherwise each side is the explicit
bound when given, else the stream's own bound. -/
def applyTimeDirective (tdt : Option String) (tdv : Option Int)
    (begin_dt end_dt : Option DateTime) (sdt0 sdt1 : DateTime) : DateTime × DateTime :=
  if truthyStr tdt && truthyInt tdv then
    (tdeltaSub sdt1 (tdt.getD "") (tdv.getD 0), sdt1)
  else
    (begin_dt.getD sdt0, end_dt.getD sdt1)

/-- Lines 616-635, the time-check stage.  The source clamps the formatted
strings (substituting the stream's raw catalog strings) and then re-parses
them for the validity comparison; each string in flight is either the
`strftime` image of its datetime or a raw catalog string whose parse is the
corresponding stream bound, so the embedding carries (string, datetime) pairs
and the re-parse is the identity on them. -/
def timeCheckWindow (rawB rawE : String) (sdt0 sdt1 : DateTime)
    (ts0 ts1 : String) (dt0 dt1 : DateTime) :
    Option ((String × DateTime) × (String × DateTime)) :=
  let ts1' := if toUs sdt1 < toUs dt1 then rawE else ts1
  let dt1' := if toUs sdt1 < toUs dt1 then sdt1 else dt1
  let ts0' := if toUs dt0 < toUs sdt0 then rawB else ts0
  let dt0' := if toUs dt0 < toUs sdt0 then sdt0 else dt0
  if toUs dt1' ≤ toUs dt0' then none else some ((ts0', dt0'), (ts1', dt1'))

/-- The data flowing into the time-check stage for one stream. -/
structure PreClamp where
  sdt0 : DateTime
  sdt1 : DateTime
  dt0 : DateTime
  dt1 : DateTime
  ts0 : String
  ts1 : String
deriving DecidableEq

/-- Lines 566-614 for one stream: telemetry filter, parse of the stream's
catalog bounds (skip on `ValueError`), window directive, `strftime` of both
ends (skip on `ValueError`, Python 2 rejects years before 1900). -/
def preClampData (o : QueryOpts) (begin_dt end_dt : Option DateTime)
    (s : StreamRec) : Option PreClamp :=
  if truthyStr o.telemetry && !(strFind s.method (o.telemetry.getD "")) then none
  else
    match s.beginTime.parsed with
    | none => none
    | some sdt0 =>
      match s.endTime.parsed with
      | none => none
      | some sdt1 =>
        let w := applyTimeDirective o.time_delta_type o.time_delta_value begin_dt end_dt sdt0 sdt1
        match strftimeE w.2 with
        | none => none
        | some ts1 =>
          match strftimeE w.1 with
          | none => none
          | some ts0 => some ⟨sdt0, sdt1, w.1, w.2, ts0, ts1⟩

/-- Line 638 plus the conditional email tag (lines 658-659): the request URL
format string, verbatim.  `selogging` and `user` are unconditional parts of
the format string; only `email` is appended conditionally. -/
def buildStreamUrl (url : String) (rt : List String) (method stream ts0 ts1 : String)
    (o : QueryOpts) : String :=
  url ++ "/" ++ rt.getD 0 "" ++ "/" ++ rt.getD 1 "" ++ "/" ++ rt.getD 2 ""
    ++ "-" ++ rt.getD 3 "" ++ "/" ++ method ++ "/" ++ stream
    ++ "?" ++ "beginDT" ++ "=" ++ ts0
    ++ "&" ++ "endDT" ++ "=" ++ ts1
    ++ "&" ++ "format" ++ "=" ++ "application/" ++ o.application_type
    ++ "&" ++ "limit" ++ "=" ++ intDec o.limit
    ++ "&" ++ "execDPA" ++ "=" ++ pyBool o.exec_dpa
    ++ "&" ++ "include_provenance" ++ "=" ++ pyBool o.provenance
    ++ "&" ++ "selogging" ++ "=" ++ pyBool o.selogging
    ++ "&" ++ "user" ++ "=" ++ o.user
    ++ (match o.email with
        | some e => "&" ++ "email" ++ "=" ++ e
        | none => "")

/-- The body of the inner loop of `instrument_to_query` (lines 566-661) for
one (instrument, stream) pair: `none` is the `continue` (skip) outcome. -/
def processStream (url : String) (rt : List String) (o : QueryOpts)
    (begin_dt end_dt : Option DateTime) (s : StreamRec) : Option String :=
  match preClampData o begin_dt end_dt s with
  | none => none
  | some pc =>
    match (if o.time_check then
        timeCheckWindow s.beginTime.raw s.endTime.raw pc.sdt0 pc.sdt1 pc.ts0 pc.ts1 pc.dt0 pc.dt1
      else some ((pc.ts0, pc.dt0), (pc.ts1, pc.dt1))) with
    | none => none
    | some w => some (buildStreamUrl url rt s.method s.stream w.1.1 w.2.1 o)

/-- `instrument.split('-')`. -/
def splitDash : List Char → List (List Char)
  | [] => [[]]
  | '-' :: t => [] :: splitDash t
  | c :: t =>
    match splitDash t with
    | h :: r => (c :: h) :: r
    | [] => [[c]]

def splitDashStr (s : String) : List String :=
  (splitDash s.data).map (fun l => String.mk l)

/-- `s.split(c)` for a single-character separator. -/
def splitOnCharL (c : Char) : List Char → List (List Char)
  | [] => [[]]
  | a :: t =>
    if a = c then [] :: splitOnCharL c t
    else
      match splitOnCharL c t with
      | h :: r => (a :: h) :: r
      | [] => [[a]]

/-- The loop semantics of `instrument_to_query` over an explicit list of
(instrument reference designator, stream record) pairs: each pair is
processed independently and a skipped pair contributes nothing. -/
def pairUrls (url : String) (o : QueryOpts) (begin_dt end_dt : Option DateTime)
    (pairs : List (String × StreamRec)) : List String :=
  pairs.filterMap (fun p => processStream url (splitDashStr p.1) o begin_dt end_dt p.2)

/-- The outer-loop body of `instrument_to_query` (lines 535-661) for one
matched instrument: validation gate, stream fetch/annotation (which mutates
the catalog), optional single-stream selection (first index), then the
per-stream inner loop. -/
def queryStep (url : String) (o : QueryOpts) (begin_dt end_dt : Option DateTime)
    (acc : Catalog × List String) (inst : String) : Catalog × List String :=
  if !validate_reference_designator inst then acc
  else
    let r := instrument_to_streams acc.1 inst
    let chosen : Option (List StreamRec) :=
      match o.stream with
      | none => some r.2
      | some sn =>
        match r.2.find? (fun s => s.stream == sn) with
        | none => none
        | some s => some [s]
    match chosen with
    | none => (r.1, acc.2)
    | some sl =>
      if sl.isEmpty then (r.1, acc.2)
      else
        let rt := splitDashStr inst
        (r.1, acc.2 ++ sl.filterMap (processStream url rt o begin_dt end_dt))

/-- `begin_ts`/`end_ts` preamble (lines 517-533): an unparsable supplied
timestamp aborts the whole call. -/
def gateTs : Option TStamp → Except Unit (Option DateTime)
  | none => .ok none
  | some t =>
    match t.parsed with
    | none => .error ()
    | some d => .ok (some d)

/-- `UFrame.instrument_to_query`: matcher, preamble gates
(relative-delta-type validity, timestamp parsing), then the nested loops.
The catalog is threaded because `instrument_to_streams` mutates it. -/
def instrument_to_query (cat : Catalog) (base_url : String) (ref_des : String)
    (o : QueryOpts) : Catalog × List String :=
  let instruments := search_instruments cat ref_des
  if instruments.isEmpty then (cat, [])
  else
    let url := base_url ++ ":12576/sensor/inv"
    if truthyStr o.time_delta_type && truthyInt o.time_delta_value
        && (parseDeltaType (o.time_delta_type.getD "")).isNone then (cat, [])
    else
      match gateTs o.begin_ts with
      | .error _ => (cat, [])
      | .ok begin_dt =>
        match gateTs o.end_ts with
        | .error _ => (cat, [])
        | .ok end_dt =>
          instruments.foldl (queryStep url o begin_dt end_dt) (cat, [])

/-- `event['referenceDesignator']` of a raw deployment event. -/
structure RefDesignator where
  full : Option String
  subsite : String
  node : String
  sensor : String
deriving DecidableEq

/-- A raw deployment event record as consumed by
`search_instrument_deployments` (the keys the code reads). -/
structure RawEvent where
  referenceDesignator : RefDesignator
  eventName : String
  eventId : Int
  eventStartTime : Option Int
  eventStopTime : Option Int
  deploymentNumber : Int
deriving DecidableEq

/-- The `instrument` sub-record of a normalized deployment event. -/
structure InstrumentInfo where
  reference_designator : String
  node : String
  full : Option String
  subsite : String
  sensor : String
deriving DecidableEq

/-- A normalized deployment event (the dictionary built at lines 224-231). -/
structure DeploymentEvent where
  instrument : InstrumentInfo
  event_start_ms : Option Int
  event_stop_ms : Option Int
  deployment_number : Int
  event_start_ts : Option String
  event_stop_ts : Option String
  active : Bool
  valid : Bool
deriving DecidableEq

/-- `datetime.utcfromtimestamp(ms/1000).strftime('%Y-%m-%dT%H:%M:%S.%sZ')`
(Python 2 `/` is floor division).  `none` models the caught `ValueError`:
`utcfromtimestamp` needs the year in 1..9999 and Python 2 `strftime` needs it
at least 1900.  glibc renders the non-standard `%s` directive as the epoch
seconds (of the naive datetime read as local time; evaluated at UTC here). -/
def eventTs (ms : Int) : Option String :=
  let secs := Int.ediv ms 1000
  let t := fromUs (secs * 1000000)
  if t.y < 1900 || t.y > 9999 then none
  else some (padNum 4 t.y.toNat ++ "-" ++ padNum 2 t.mo ++ "-" ++ padNum 2 t.d ++ "T"
    ++ padNum 2 t.h ++ ":" ++ padNum 2 t.mi ++ ":" ++ padNum 2 t.s ++ "."
    ++ intDec secs ++ "Z")

/-- The normalization body of `search_instrument_deployments` (lines 205-259)
for one raw event; `none` is any of the logged skip outcomes (no
fully-qualified reference designator, falsy `eventStartTime`, timestamp
conversion failure). -/
def parse_deployment_event (e : RawEvent) : Option DeploymentEvent :=
  if !truthyStr e.referenceDesignator.full then none
  else
    let reference_designator := e.referenceDesignator.subsite ++ "-"
      ++ e.referenceDesignator.node ++ "-" ++ e.referenceDesignator.sensor
    if !truthyInt e.eventStartTime then none
    else
      let base : DeploymentEvent :=
        { instrument :=
            { reference_designator := reference_designator
              node := e.referenceDesignator.node
              full := e.referenceDesignator.full
              subsite := e.referenceDesignator.subsite
              sensor := e.referenceDesignator.sensor }
          event_start_ms := e.eventStartTime
          event_stop_ms := e.eventStopTime
          deployment_number := e.deploymentNumber
          event_start_ts := none
          event_stop_ts := none
          active := false
          valid := false }
      match eventTs (e.eventStartTime.getD 0) with
      | none => none
      | some startTs =>
        let withStart := { base with event_start_ts := some startTs }
        if truthyInt e.eventStopTime then
          match eventTs (e.eventStopTime.getD 0) with
          | none => none
          | some stopTs => some { withStart with event_stop_ts := some stopTs, valid := true }
        else
          some { withStart with active := true, valid := true }

/-- The status/substring filter tail of the loop (lines 261-271). -/
def keepDeploymentEvent (status : Option String) (srch : Option String)
    (d : DeploymentEvent) : Bool :=
  (match status with
   | none => true
   | some st =>
     if pyLower st == "active" then d.active
     else if pyLower st == "inactive" then !d.active
     else true)
  && (match srch with
      | none => true
      | some frag => strFind d.instrument.reference_designator frag)

/-- `UFrame.search_instrument_deployments`, post-transport: normalize each
raw event, apply the optional status and substring filters, keep input
order. -/
def search_instrument_deployments (events : List RawEvent)
    (status : Option String) (srch : Option String) : List DeploymentEvent :=
  events.filterMap (fun e =>
    match parse_deployment_event e with
    | none => none
    | some d => if keepDeploymentEvent status srch d then some d else none)

/-- The per-item response record of `send_async_requests` (lines 774-782);
`stream`/`reference_designator`/`instrument` are `None`-or-value fields
(the initial `{}` for `stream` is modelled as `none`). -/
structure AsyncRecord where
  requestUrl : String
  status : Bool
  status_code : Int
  response : Option String
  reason : Option String
  stream : Option String
  reference_designator : Option String
  instrument : Option (String × String × String × String × String)
deriving DecidableEq

/-- Result of `requests.get(request_url)` for one async submission: a raised
`RequestException` (with its message), or a response with status code,
reason, and a decoded JSON body (`none` models a decode failure). -/
inductive HttpResult
  | exn (msg : String)
  | resp (status_code : Int) (reason : String) (body : Option String)

/-- The greedy anchored match of
`^https?:\/\/.*\/sensor\/inv\/(.*)\?` and its captured group: after the
scheme, the first `.*` (greedy) backtracks to the last `/sensor/inv/`
occurrence that still leaves a later `?`; the group then runs to the last
`?` of the string. -/
def matchSensorInv (url : String) : Option String :=
  let cs := url.data
  let rest? : Option (List Char) :=
    if ("https://").data.isPrefixOf cs then some (cs.drop 8)
    else if ("http://").data.isPrefixOf cs then some (cs.drop 7)
    else none
  match rest? with
  | none => none
  | some rest =>
    let marker := ("/sensor/inv/").data
    match (rest.reverse.findIdx? (fun c => c == '?')).map (fun j => rest.length - 1 - j) with
    | none => none
    | some q =>
      let occs := (List.range rest.length).filter
        (fun i => marker.isPrefixOf (rest.drop i) && i + 12 ≤ q)
      match occs.getLast? with
      | none => none
      | some i => some (String.mk ((rest.drop (i + 12)).take (q - (i + 12))))

/-- The per-URL body of `send_async_requests` (lines 769-848).  The HTTP
round trip is abstracted by the `http` oracle; a URL rejected before the
`requests.get` call provably never consults it. -/
def processAsyncUrl (http : String → HttpResult) (base_url url : String) : AsyncRecord :=
  let request_url := pyStrip url
  let r0 : AsyncRecord :=
    { requestUrl := request_url
      status := false
      status_code := -1
      response := none
      reason := none
      stream := none
      reference_designator := none
      instrument := none }
  if !(base_url.data.isPrefixOf url.data) then
    { r0 with requestUrl := "URL points to alternate UFrame instance" }
  else
    match matchSensorInv url with
    | none => { r0 with reason := some ("UFrame Instance: Badly Formatted Request") }
    | some grp =>
      let toks := (splitOnCharL '/' grp.data).map (fun l => String.mk l)
      if toks.length ≠ 5 then { r0 with reason := some ("UFrame Instance: Badly Formatted Request") }
      else
        let t := fun i => toks.getD i ""
        let r1 := { r0 with
          reference_designator := some (t 0 ++ "-" ++ t 1 ++ "-" ++ t 2)
          stream := some (t 0 ++ "-" ++ t 1 ++ "-" ++ t 2 ++ "-" ++ t 4 ++ "-" ++ t 3)
          instrument := some (t 0, t 1, t 2, t 3, t 4) }
        match http request_url with
        | .exn m => { r1 with reason := some m }
        | .resp code reason body =>
          let r2 := { r1 with status_code := code, reason := some reason }
          if code ≠ 200 then r2
          else
            match body with
            | none => { r2 with reason := some ("No JSON object could be decoded") }
            | some j => { r2 with response := some j, status := true }

/-- `UFrame.send_async_requests` over an explicit URL list. -/
def send_async_requests (http : String → HttpResult) (base_url : String)
    (urls : List String) : List AsyncRecord :=
  urls.map (processAsyncUrl http base_url)

/-- Everything after the first `?` of a URL. -/
def afterQ : List Char → List Char
  | [] => []
  | a :: t => if a = '?' then t else afterQ t

/-- The query-parameter keys of a request URL: the text after the first `?`,
split at `&`, each piece truncated at its first `=`. -/
def queryKeys (u : String) : List String :=
  (splitOnCharL '&' (afterQ u.data)).map
    (fun kv => String.mk (kv.takeWhile (fun c => c ≠ '=')))

/-- A query string assembled from (key, value) pairs:
`k1=v1&k2=v2&...&kn=vn`. -/
def mkQuery : List (List Char × List Char) → List Char
  | [] => []
  | [kv] => kv.1 ++ '=' :: kv.2
  | kv :: t => kv.1 ++ '=' :: (kv.2 ++ '&' :: mkQuery t)

/-- The claim's reading of `validate`: the whole string is exactly four
hyphen-delimited word-character tokens of minimum lengths 8/5/2/9.  Stated
from the claim's words, for comparison with the source's
`validate_reference_designator`. -/
def specValidate (s : String) : Bool :=
  let tokOk := fun (t : List Char) (n : Nat) => n ≤ t.length && t.all isWordChar
  match splitDash s.data with
  | [a, b, c, d] => tokOk a 8 && tokOk b 5 && tokOk c 2 && tokOk d 9
  | _ => false

/-- A `\w{n,}` token: at least `n` characters, all word characters. -/
def WordToken (l : List Char) (n : Nat) : Prop :=
  n ≤ l.length ∧ ∀ c ∈ l, isWordChar c = true

/-- The catalog observables that remain fixed outside a fetch: the four
derived indexes and the key set (in order) of the mapping. -/
def sameIndexes (a b : Catalog) : Prop :=
  a.instruments = b.instruments ∧ a.parameters = b.parameters
    ∧ a.streams = b.streams ∧ a.arrays = b.arrays
    ∧ a.toc.map (fun kv => kv.1) = b.toc.map (fun kv => kv.1)

/-! Concrete fixtures used by the witnesses, counterexamples and the claims'
concrete scenarios. -/

def dt2015 : DateTime := ⟨2015, 1, 1, 0, 0, 0, 0⟩
def dt2020 : DateTime := ⟨2020, 1, 1, 0, 0, 0, 0⟩

/-- A stream with catalog bounds 2015-01-01 .. 2020-01-01. -/
def sFlort : StreamRec :=
  { stream := "flort_sample"
    method := "recovered_host"
    beginTime := ⟨"2015-01-01T00:00:00.000Z", some dt2015⟩
    endTime := ⟨"2020-01-01T00:00:00.000Z", some dt2020⟩ }

/-- A stream whose catalog bounds coincide, so its window is empty after the
time check (`start >= end`). -/
def sDegen : StreamRec :=
  { stream := "ctdbp_no_sample"
    method := "recovered_inst"
    beginTime := ⟨"2016-06-01T00:00:00.000Z", some ⟨2016, 6, 1, 0, 0, 0, 0⟩⟩
    endTime := ⟨"2016-06-01T00:00:00.000Z", some ⟨2016, 6, 1, 0, 0, 0, 0⟩⟩ }

/-- A second valid stream for the batch scenarios. -/
def sCtd : StreamRec :=
  { stream := "ctdbp_cdef_sample"
    method := "telemetered"
    beginTime := ⟨"2016-01-01T00:00:00.000Z", some ⟨2016, 1, 1, 0, 0, 0, 0⟩⟩
    endTime := ⟨"2019-01-01T00:00:00.000Z", some ⟨2019, 1, 1, 0, 0, 0, 0⟩⟩ }

def recGI : InstRecord :=
  { reference_designator := some "GI01SUMO-RII01-02-FLORTD000"
    instrument_parameters := some []
    streams := some [sFlort] }

def recCE : InstRecord :=
  { reference_designator := some "CE01ISSM-RID16-03-CTDBPC000"
    instrument_parameters := some []
    streams := some [sCtd, sDegen] }

/-- Catalog built by a successful legacy fetch of the two example records. -/
def catEx : Catalog :=
  (fetch_toc ⟨[], [], [], [], []⟩ (.resp 200 (.list [recGI, recCE]))).1

/-- Options asking for both a relative delta (30 days) and explicit bounds. -/
def oDelta : QueryOpts :=
  { time_delta_type := some "days"
    time_delta_value := some 30
    begin_ts := some ⟨"1999-01-01T00:00:00.000Z", some ⟨1999, 1, 1, 0, 0, 0, 0⟩⟩
    end_ts := some ⟨"2001-01-01T00:00:00.000Z", some ⟨2001, 1, 1, 0, 0, 0, 0⟩⟩ }

/-- Raw deployment event with a start time and no stop time. -/
def evStopNull : RawEvent :=
  { referenceDesignator :=
      ⟨some "GI01SUMO-RII01-02-FLORTD000", "GI01SUMO", "RII01", "02-FLORTD000"⟩
    eventName := "Deploy 1"
    eventId := 1
    eventStartTime := some 1420070400000
    eventStopTime := none
    deploymentNumber := 1 }

/-- The same event with `eventStopTime = 0` (midnight 1970-01-01, present but
falsy in Python). -/
def evStopZero : RawEvent :=
  { evStopNull with eventStopTime := some 0 }

/-- A record that is valid JSON but lacks the `instrument_parameters` key the
legacy flattening reads. -/
def recNoParams : InstRecord :=
  { reference_designator := some "CE01ISSM-RID16-03-CTDBPC000"
    instrument_parameters := none
    streams := some [] }

/-- A prior catalog state distinguishable from anything a fetch builds. -/
def stOld : Catalog := ⟨[], ["OLD"], [], [], []⟩

/-- A placeholder normalized event (used only as a `getD` default). -/
def noDeployment : DeploymentEvent :=
  { instrument := ⟨"", "", none, "", ""⟩
    event_start_ms := none
    event_stop_ms := none
    deployment_number := 0
    event_start_ts := none
    event_stop_ts := none
    active := false
    valid := false }

/-- Two distinct HTTP oracles, for showing a rejected URL consults neither. -/
def httpAlways200 : String → HttpResult := fun _ => .resp 200 "OK" (some "{}")

def httpAlwaysDown : String → HttpResult := fun _ => .exn "connection refused"

/-! ## Helper lemmas -/

theorem takeWhile_all_append {p : Char → Bool} {l₁ : List Char} (l₂ : List Char)
    (h : ∀ c ∈ l₁, p c = true) : (l₁ ++ l₂).takeWhile p = l₁ ++ l₂.takeWhile p := by
  induction l₁ with
  | nil => simp
  | cons a t ih =>
    have ha : p a = true := h a (by simp)
    simp [List.takeWhile_cons, ha, ih (fun c hc => h c (by simp [hc]))]

theorem dropWhile_all_append {p : Char → Bool} {l₁ : List Char} (l₂ : List Char)
    (h : ∀ c ∈ l₁, p c = true) : (l₁ ++ l₂).dropWhile p = l₂.dropWhile p := by
  induction l₁ with
  | nil => simp
  | cons a t ih =>
    have ha : p a = true := h a (by simp)
    simp [List.dropWhile_cons, ha, ih (fun c hc => h c (by simp [hc]))]

theorem takeWhile_all_stop {p : Char → Bool} {l₁ : List Char} {b : Char} (l₂ : List Char)
    (h : ∀ c ∈ l₁, p c = true) (hb : p b = false) :
    (l₁ ++ b :: l₂).takeWhile p = l₁ := by
  rw [takeWhile_all_append _ h]
  simp [List.takeWhile_cons, hb]

theorem dropWhile_all_stop {p : Char → Bool} {l₁ : List Char} {b : Char} (l₂ : List Char)
    (h : ∀ c ∈ l₁, p c = true) (hb : p b = false) :
    (l₁ ++ b :: l₂).dropWhile p = b :: l₂ := by
  rw [dropWhile_all_append _ h]
  simp [List.dropWhile_cons, hb]

theorem containsSub_iff {hay pat : List Char} : containsSub hay pat = true ↔ pat <:+: hay := by
  unfold containsSub
  rw [List.any_eq_true]
  constructor
  · rintro ⟨t, ht, hp⟩
    rw [List.mem_tails] at ht
    rw [List.isPrefixOf_iff_prefix] at hp
    exact List.infix_iff_prefix_suffix.mpr ⟨t, hp, ht⟩
  · intro h
    obtain ⟨t, hp, ht⟩ := List.infix_iff_prefix_suffix.mp h
    exact ⟨t, (List.mem_tails _ _).mpr ht, List.isPrefixOf_iff_prefix.mpr hp⟩

theorem length_filterMap_of_isSome {α β : Type} {f : α → Option β} {l : List α}
    (h : ∀ a ∈ l, (f a).isSome = true) : (l.filterMap f).length = l.length := by
  induction l with
  | nil => simp
  | cons a t ih =>
    have ha := h a (by simp)
    obtain ⟨b, hb⟩ := Option.isSome_iff_exists.mp ha
    simp [List.filterMap_cons, hb, ih (fun x hx => h x (by simp [hx]))]

/-! ## Claims -/

/-- C2: with the time check enabled, the resolved end is clamped down to the
stream's end bound and the resolved start is clamped up to the stream's start
bound (min/max on the timeline), and running the time-check stage again on
the already-clamped window returns that window unchanged. -/
theorem time_check_idempotent (rawB rawE : String) (sdt0 sdt1 : DateTime)
    (ts0 ts1 : String) (dt0 dt1 : DateTime) (q0r q1r : String) (q0d q1d : DateTime)
    (h : timeCheckWindow rawB rawE sdt0 sdt1 ts0 ts1 dt0 dt1 = some ((q0r, q0d), (q1r, q1d))) :
    toUs q1d = min (toUs dt1) (toUs sdt1)
    ∧ toUs q0d = max (toUs dt0) (toUs sdt0)
    ∧ timeCheckWindow rawB rawE sdt0 sdt1 q0r q1r q0d q1d = some ((q0r, q0d), (q1r, q1d)) := by
  simp only [timeCheckWindow] at h
  by_cases hA : toUs sdt1 < toUs dt1 <;> by_cases hB : toUs dt0 < toUs sdt0 <;>
    simp only [hA, hB, ite_true, ite_false, if_pos, if_neg, not_false_iff] at h <;>
    split at h <;>
    simp only [Option.some.injEq, Prod.mk.injEq, reduceCtorEq, false_and] at h
  all_goals
    obtain ⟨⟨rfl, rfl⟩, rfl, rfl⟩ := h
    refine ⟨by omega, by omega, ?_⟩
    simp only [timeCheckWindow]
    split_ifs <;> first | rfl | omega

theorem time_check_idempotent_witness :
    toUs ((("2020-01-01T00:00:00.000Z", dt2020) : String × DateTime)).2
        = min (toUs ⟨2021, 1, 1, 0, 0, 0, 0⟩) (toUs dt2020)
    ∧ toUs ((("2015-01-01T00:00:00.000Z", dt2015) : String × DateTime)).2
        = max (toUs ⟨2014, 1, 1, 0, 0, 0, 0⟩) (toUs dt2015)
    ∧ timeCheckWindow ("2015-01-01T00:00:00.000Z") ("2020-01-01T00:00:00.000Z")
        dt2015 dt2020 ("2015-01-01T00:00:00.000Z") ("2020-01-01T00:00:00.000Z")
        dt2015 dt2020
      = some (("2015-01-01T00:00:00.000Z", dt2015), ("2020-01-01T00:00:00.000Z", dt2020)) :=
  time_check_idempotent ("2015-01-01T00:00:00.000Z") ("2020-01-01T00:00:00.000Z")
    dt2015 dt2020 ("t0") ("t1") ⟨2014, 1, 1, 0, 0, 0, 0⟩ ⟨2021, 1, 1, 0, 0, 0, 0⟩
    ("2015-01-01T00:00:00.000Z") ("2020-01-01T00:00:00.000Z") dt2015 dt2020
    (by decide)

/-- C10: a submitted URL that does not begin with the configured base URL is
answered locally: the per-item record is the constant record whose
`requestUrl` is the literal replacement text (status false, status_code -1,
reason None, the submitted URL not retained anywhere), and the HTTP oracle is
never consulted — the result is the same for every oracle. -/
theorem async_alternate_instance_record (http http' : String → HttpResult)
    (base url : String) (h : base.data.isPrefixOf url.data = false) :
    processAsyncUrl http base url =
      { requestUrl := "URL points to alternate UFrame instance"
        status := false
        status_code := -1
        response := none
        reason := none
        stream := none
        reference_designator := none
        instrument := none }
    ∧ processAsyncUrl http base url = processAsyncUrl http' base url := by
  constructor <;> simp [processAsyncUrl, h]

theorem async_alternate_instance_record_witness :
    processAsyncUrl httpAlways200 ("http://uframe-local") ("http://other-host:12576/sensor/inv/a/b/c/d/e?x=1") =
      { requestUrl := "URL points to alternate UFrame instance"
        status := false
        status_code := -1
        response := none
        reason := none
        stream := none
        reference_designator := none
        instrument := none }
    ∧ processAsyncUrl httpAlways200 ("http://uframe-local") ("http://other-host:12576/sensor/inv/a/b/c/d/e?x=1")
      = processAsyncUrl httpAlwaysDown ("http://uframe-local") ("http://other-host:12576/sensor/inv/a/b/c/d/e?x=1") :=
  async_alternate_instance_record httpAlways200 httpAlwaysDown
    ("http://uframe-local") ("http://other-host:12576/sensor/inv/a/b/c/d/e?x=1") (by decide)

/-- C9 counterexample: a deployment event whose raw `eventStopTime` is the
integer 0 — a present stop time — passes all skip conditions yet is
normalized with `active = true` (the code tests Python truthiness, and 0 is
falsy), refuting "active is true if and only if the stop time is absent". -/
theorem deployment_stop_zero_counterexample :
    evStopZero.eventStopTime = some 0
    ∧ (parse_deployment_event evStopZero).map DeploymentEvent.active = some true
    ∧ (parse_deployment_event evStopZero).map DeploymentEvent.event_stop_ts = some none := by
  decide

/-- C9 (amended): for every raw event the normalizer accepts, the `active`
flag is true exactly when the raw stop time is Python-falsy (absent or zero),
and an absent stop time yields a null `event_stop_ts`; symmetrically a truthy
stop time yields a non-null `event_stop_ts`. -/
theorem deployment_active_iff_falsy_stop (e : RawEvent) (d : DeploymentEvent)
    (h : parse_deployment_event e = some d) :
    (d.active = true ↔ truthyInt e.eventStopTime = false)
    ∧ (e.eventStopTime = none → d.event_stop_ts = none)
    ∧ (truthyInt e.eventStopTime = true → d.event_stop_ts ≠ none) := by
  simp only [parse_deployment_event] at h
  split at h
  · simp at h
  · split at h
    · simp at h
    · split at h
      · simp at h
      · rename_i startTs hstart
        split at h
        · rename_i hstop
          split at h
          · simp at h
          · rename_i stopTs hstopTs
            obtain rfl := Option.some.inj h
            refine ⟨by simp [hstop], ?_, by simp⟩
            intro hn
            rw [hn] at hstop
            simp [truthyInt] at hstop
        · rename_i hstop
          obtain rfl := Option.some.inj h
          simp only [Bool.not_eq_true] at hstop
          exact ⟨by simp [hstop], fun _ => rfl, fun hc => absurd hc (by simp [hstop])⟩

theorem deployment_active_iff_falsy_stop_witness :
    ((parse_deployment_event evStopNull).getD noDeployment).active = true
    ∧ evStopNull.eventStopTime = none
    ∧ ((parse_deployment_event evStopNull).getD noDeployment).event_stop_ts = none := by
  have h : parse_deployment_event evStopNull = some
      { instrument := ⟨"GI01SUMO-RII01-02-FLORTD000", "RII01",
          some "GI01SUMO-RII01-02-FLORTD000", "GI01SUMO", "02-FLORTD000"⟩
        event_start_ms := some 1420070400000
        event_stop_ms := none
        deployment_number := 1
        event_start_ts := some "2015-01-01T00:00:00.1420070400Z"
        event_stop_ts := none
        active := true
        valid := true } := by decide
  have hm := deployment_active_iff_falsy_stop evStopNull _ h
  refine ⟨?_, rfl, ?_⟩
  · rw [h]
    exact (hm.1).mpr (by decide)
  · rw [h]
    exact hm.2.1 rfl

theorem fetchList_not_failed (st : Catalog) (items : List InstRecord) :
    (fetchList st items).2 ≠ .failed := by
  rcases hm : mkToc items with _ | toc0 <;>
    rcases hl : legacyParamsStreams items with _ | ⟨a, b⟩ <;>
    simp [fetchList, hm, hl]

theorem fetchList_failed_eq (st : Catalog) (items : List InstRecord) :
    (fetchList st items).2 = .failed → (fetchList st items).1 = st :=
  fun h => absurd h (fetchList_not_failed st items)

theorem fetchList_ok_indep (st st' : Catalog) (items : List InstRecord)
    (h : (fetchList st items).2 = .ok) :
    (fetchList st items).1 = (fetchList st' items).1 := by
  rcases hm : mkToc items with _ | toc0 <;>
    rcases hl : legacyParamsStreams items with _ | ⟨a, b⟩ <;>
    simp [fetchList, hm, hl] at h ⊢

theorem fetchDict_not_failed (st : Catalog) (a : Option (List InstRecord))
    (b : Option (List ParamRec)) (c : Option (List (String × List Int))) :
    (fetchDict st a b c).2 ≠ .failed := by
  unfold fetchDict
  intro h
  repeat' split at h
  all_goals dsimp only at h
  all_goals try split_ifs at h
  all_goals simp at h

theorem fetchDict_ok_indep (st st' : Catalog) (a : Option (List InstRecord))
    (b : Option (List ParamRec)) (c : Option (List (String × List Int)))
    (h : (fetchDict st a b c).2 = .ok) :
    (fetchDict st a b c).1 = (fetchDict st' a b c).1 := by
  rcases ha : a with _ | insts
  · simp [fetchDict, ha] at h
  rcases hm : mkToc insts with _ | toc0
  · simp [fetchDict, ha, hm] at h
  rcases hb : b with _ | pdefs
  · simp [fetchDict, ha, hm, hb] at h
  rcases hp : mkParamDefs pdefs with _ | pdm
  · simp [fetchDict, ha, hm, hb, hp] at h
  rcases hc : c with _ | pbs
  · simp [fetchDict, ha, hm, hb, hp, hc] at h
  rcases hs : buildStreamDefs pdm pbs with _ | ⟨pdm', sdefs⟩
  · simp [fetchDict, ha, hm, hb, hp, hc, hs] at h
  by_cases hA : (annotateTocD sdefs pdm' toc0).2 = true
  · simp [fetchDict, ha, hm, hb, hp, hc, hs, hA] at h
  rcases hq : particleKeys pdefs with _ | names
  · simp [fetchDict, ha, hm, hb, hp, hc, hs, hA, hq] at h
  simp [fetchDict, ha, hm, hb, hp, hc, hs, hA, hq]

theorem fetch_failed_unchanged (st : Catalog) (r : FetchResult)
    (h : (fetch_toc st r).2 = .failed) : (fetch_toc st r).1 = st := by
  cases r with
  | netErr => rfl
  | resp code body =>
    by_cases hc : code = 200
    · subst hc
      cases body with
      | undecodable => rfl
      | other => rfl
      | list items => exact absurd (by simpa [fetch_toc] using h) (fetchList_not_failed st items)
      | dict a b c => exact absurd (by simpa [fetch_toc] using h) (fetchDict_not_failed st a b c)
    · simp [fetch_toc, hc]

/-- C5 counterexample: the original claim fails two ways.  A 200 response
whose JSON body is a list containing a record without the
`instrument_parameters` key makes `_fetch_toc` raise (`KeyError`) past the
call boundary, with the catalog already partially replaced (`_toc` and
`_instruments` updated, the other indexes stale); and a non-success HTTP
status also raises past the boundary (the diagnostic's `r.message` is an
`AttributeError`), rather than signalling the failure. -/
theorem fetch_malformed_record_counterexample :
    fetch_toc stOld (.resp 200 (.list [recNoParams]))
      = (⟨[("CE01ISSM-RID16-03-CTDBPC000", recNoParams)],
          ["CE01ISSM-RID16-03-CTDBPC000"], [], [], []⟩, .raised)
    ∧ (fetch_toc stOld (.resp 200 (.list [recNoParams]))).1 ≠ stOld
    ∧ (fetch_toc stOld (.resp 200 (.list [recNoParams]))).2 ≠ .failed
    ∧ fetch_toc stOld (.resp 404 .undecodable) = (stOld, .raised) := by
  decide

/-- C5 (amended): the failures the code actually catches — a network error,
a JSON-undecodable 200 body, or a decoded 200 body of unknown type — leave
the catalog and every derived index exactly as they were (searches return
identical results) and signal the failure without raising; and a successful
fetch replaces the whole catalog with a value computed from the payload
alone (independent of the prior state).  A non-success HTTP status leaves
the catalog unchanged but raises (`AttributeError` from the diagnostic's
`r.message`) instead of signalling, and shape errors inside a decoded
list/dict payload raise past the boundary too (see the counterexample). -/
theorem fetch_failure_preserves_catalog (st st' : Catalog) (r : FetchResult) (t : String) :
    ((fetch_toc st r).2 = .failed →
      (fetch_toc st r).1 = st
      ∧ search_instruments (fetch_toc st r).1 t = search_instruments st t)
    ∧ fetch_toc st .netErr = (st, .failed)
    ∧ fetch_toc st (.resp 200 .undecodable) = (st, .failed)
    ∧ fetch_toc st (.resp 200 .other) = (st, .failed)
    ∧ (∀ code body, code ≠ 200 → fetch_toc st (.resp code body) = (st, .raised))
    ∧ ((fetch_toc st r).2 = .ok → (fetch_toc st r).1 = (fetch_toc st' r).1) := by
  refine ⟨?_, rfl, rfl, rfl, ?_, ?_⟩
  · intro h
    have hu := fetch_failed_unchanged st r h
    exact ⟨hu, by rw [hu]⟩
  · intro code body hc
    simp [fetch_toc, hc]
  · intro h
    cases r with
    | netErr => simp [fetch_toc] at h
    | resp code body =>
      by_cases hc : code = 200
      · subst hc
        cases body with
        | undecodable => simp [fetch_toc] at h
        | other => simp [fetch_toc] at h
        | list items =>
          simpa [fetch_toc] using fetchList_ok_indep st st' items (by simpa [fetch_toc] using h)
        | dict a b c =>
          simpa [fetch_toc] using fetchDict_ok_indep st st' a b c (by simpa [fetch_toc] using h)
      · simp [fetch_toc, hc] at h

theorem fetch_failure_preserves_catalog_witness :
    ((fetch_toc stOld .netErr).2 = .failed →
      (fetch_toc stOld .netErr).1 = stOld
      ∧ search_instruments (fetch_toc stOld .netErr).1 ("GI01SUMO")
        = search_instruments stOld ("GI01SUMO"))
    ∧ fetch_toc stOld .netErr = (stOld, .failed)
    ∧ fetch_toc stOld (.resp 200 .undecodable) = (stOld, .failed)
    ∧ fetch_toc stOld (.resp 200 .other) = (stOld, .failed)
    ∧ (∀ code body, code ≠ 200 → fetch_toc stOld (.resp code body) = (stOld, .raised))
    ∧ ((fetch_toc stOld .netErr).2 = .ok →
        (fetch_toc stOld .netErr).1 = (fetch_toc catEx .netErr).1) :=
  fetch_failure_preserves_catalog stOld catEx .netErr ("GI01SUMO")

set_option maxRecDepth 40000 in
/-- C1: when both a relative-delta directive and explicit begin/end bounds
are supplied, the window stage resolves to exactly
`[streamEnd - delta, streamEnd]`: the explicit bounds (and the stream's start
bound) are ignored — the result depends only on the delta inputs and the
stream's end bound.  Concretely, for stream bounds 2015-01-01..2020-01-01 and
a 30-day delta alongside explicit 1999/2001 bounds, the built request carries
the window 2019-12-02T00:00:00.000000Z .. 2020-01-01T00:00:00.000000Z. -/
theorem relative_delta_precedence :
    (∀ (ty : String) (v : Int) (b e b' e' x x' sdt1 : DateTime),
      truthyStr (some ty) = true → v ≠ 0 →
      applyTimeDirective (some ty) (some v) (some b) (some e) x sdt1
        = (tdeltaSub sdt1 ty v, sdt1)
      ∧ applyTimeDirective (some ty) (some v) (some b) (some e) x sdt1
        = applyTimeDirective (some ty) (some v) (some b') (some e') x' sdt1)
    ∧ processStream ("http://uf:12576/sensor/inv") (splitDashStr ("GI01SUMO-RII01-02-FLORTD000"))
        oDelta (some ⟨1999, 1, 1, 0, 0, 0, 0⟩) (some ⟨2001, 1, 1, 0, 0, 0, 0⟩) sFlort
      = some ("http://uf:12576/sensor/inv/GI01SUMO/RII01/02-FLORTD000/recovered_host/flort_sample?beginDT=2019-12-02T00:00:00.000000Z&endDT=2020-01-01T00:00:00.000000Z&format=application/netcdf&limit=-1&execDPA=true&include_provenance=true&selogging=false&user=_nouser") := by
  constructor
  · intro ty v b e b' e' x x' sdt1 hty hv
    have hv' : truthyInt (some v) = true := by simp [truthyInt, hv]
    constructor <;> simp [applyTimeDirective, hty, hv']
  · decide

theorem relative_delta_precedence_witness :
    applyTimeDirective (some ("days")) (some 30)
        (some ⟨1999, 1, 1, 0, 0, 0, 0⟩) (some ⟨2001, 1, 1, 0, 0, 0, 0⟩)
        ⟨2015, 1, 1, 0, 0, 0, 0⟩ dt2020
      = (⟨2019, 12, 2, 0, 0, 0, 0⟩, dt2020)
    ∧ applyTimeDirective (some ("days")) (some 30)
        (some ⟨1999, 1, 1, 0, 0, 0, 0⟩) (some ⟨2001, 1, 1, 0, 0, 0, 0⟩)
        ⟨2015, 1, 1, 0, 0, 0, 0⟩ dt2020
      = applyTimeDirective (some ("days")) (some 30)
        (some ⟨1980, 6, 15, 12, 0, 0, 0⟩) (some ⟨2023, 2, 28, 23, 59, 59, 0⟩)
        ⟨1970, 1, 1, 0, 0, 0, 0⟩ dt2020 := by
  have h := (relative_delta_precedence.1 ("days") 30
    ⟨1999, 1, 1, 0, 0, 0, 0⟩ ⟨2001, 1, 1, 0, 0, 0, 0⟩
    ⟨1980, 6, 15, 12, 0, 0, 0⟩ ⟨2023, 2, 28, 23, 59, 59, 0⟩
    ⟨2015, 1, 1, 0, 0, 0, 0⟩ ⟨1970, 1, 1, 0, 0, 0, 0⟩ dt2020
    (by decide) (by decide))
  exact ⟨h.1.trans (by decide), h.2⟩

/-- C6: identifier search returns exactly the members of the catalog's sorted
identifier index that contain the target as a (case-sensitive) substring, in
index order (the result is a sublist of the index), and returns the empty
list on an unpopulated catalog; concretely, fragment "GI01SUMO" against a
catalog holding GI01SUMO-RII01-02-FLORTD000 and CE01ISSM-RID16-03-CTDBPC000
returns only the former. -/
theorem search_instruments_characterization :
    (∀ (cat : Catalog) (t : String),
      (cat.toc = [] → search_instruments cat t = [])
      ∧ List.Sublist (search_instruments cat t) cat.instruments
      ∧ (∀ r, r ∈ search_instruments cat t
          ↔ cat.toc ≠ [] ∧ r ∈ cat.instruments ∧ t.data <:+: r.data))
    ∧ search_instruments catEx ("GI01SUMO") = ["GI01SUMO-RII01-02-FLORTD000"] := by
  constructor
  · intro cat t
    refine ⟨?_, ?_, ?_⟩
    · intro h
      simp [search_instruments, h]
    · unfold search_instruments
      split
      · exact List.nil_sublist _
      · exact List.filter_sublist _
    · intro r
      unfold search_instruments
      by_cases h : cat.toc.isEmpty
      · simp [h, List.isEmpty_iff.mp h]
      · have h' : cat.toc ≠ [] := by
          intro hn
          exact h (by simp [hn])
        simp [h, h', List.mem_filter, strFind, containsSub_iff]
  · decide

theorem search_instruments_characterization_witness :
    ("GI01SUMO-RII01-02-FLORTD000") ∈ search_instruments catEx ("GI01SUMO") :=
  ((search_instruments_characterization.1 catEx ("GI01SUMO")).2.2 _).mpr
    ⟨by decide, by decide, by decide⟩

theorem updateToc_keys (m : List (String × InstRecord)) (k : String)
    (f : InstRecord → InstRecord) :
    (updateToc m k f).map (fun kv => kv.1) = m.map (fun kv => kv.1) := by
  unfold updateToc
  rw [List.map_map]
  apply List.map_congr_left
  intro a _
  simp only [Function.comp]
  split <;> rfl

theorem sameIndexes_refl (c : Catalog) : sameIndexes c c :=
  ⟨rfl, rfl, rfl, rfl, rfl⟩

theorem sameIndexes_trans {a b c : Catalog} (h1 : sameIndexes a b) (h2 : sameIndexes b c) :
    sameIndexes a c :=
  ⟨h1.1.trans h2.1, h1.2.1.trans h2.2.1, h1.2.2.1.trans h2.2.2.1,
    h1.2.2.2.1.trans h2.2.2.2.1, h1.2.2.2.2.trans h2.2.2.2.2⟩

theorem itsStep_pres (acc : Catalog × List StreamRec) (inst : String) :
    sameIndexes (itsStep acc inst).1 acc.1 := by
  unfold itsStep
  split
  · exact sameIndexes_refl _
  split
  · exact sameIndexes_refl _
  refine ⟨rfl, rfl, rfl, rfl, ?_⟩
  dsimp only
  exact updateToc_keys _ _ _

theorem itsFold_pres (l : List String) :
    ∀ acc : Catalog × List StreamRec, sameIndexes ((l.foldl itsStep acc).1) acc.1 := by
  induction l with
  | nil => intro acc; exact sameIndexes_refl _
  | cons a t ih =>
    intro acc
    exact sameIndexes_trans (ih (itsStep acc a)) (itsStep_pres acc a)

theorem its_pres (cat : Catalog) (rd : String) :
    sameIndexes (instrument_to_streams cat rd).1 cat :=
  itsFold_pres (search_instruments cat rd) (cat, [])

theorem queryStep_pres (url : String) (o : QueryOpts) (b e : Option DateTime)
    (acc : Catalog × List String) (inst : String) :
    sameIndexes (queryStep url o b e acc inst).1 acc.1 := by
  unfold queryStep
  by_cases hv : validate_reference_designator inst
  · simp only [hv, Bool.not_true, Bool.false_eq_true, if_false]
    split
    · exact its_pres acc.1 inst
    · split
      · exact its_pres acc.1 inst
      · exact its_pres acc.1 inst
  · simp only [hv, Bool.not_false, if_true]
    exact sameIndexes_refl _

theorem queryFold_pres (url : String) (o : QueryOpts) (b e : Option DateTime)
    (l : List String) :
    ∀ acc : Catalog × List String,
      sameIndexes ((l.foldl (queryStep url o b e) acc).1) acc.1 := by
  induction l with
  | nil => intro acc; exact sameIndexes_refl _
  | cons a t ih =>
    intro acc
    exact sameIndexes_trans (ih (queryStep url o b e acc a)) (queryStep_pres url o b e acc a)

/-- C8 (amended): outside a fetch, the derived indexes (sorted identifier,
parameter, stream and array lists) and the key set of the catalog mapping are
never changed — both the stream-listing operation and query construction
preserve all of them (pure searches take the catalog read-only by
construction).  The mapping's values, however, are not preserved:
`instrument_to_streams` annotates the stored stream dictionaries in place
(see the counterexample). -/
theorem catalog_frame_condition :
    (∀ (cat : Catalog) (rd : String), sameIndexes (instrument_to_streams cat rd).1 cat)
    ∧ (∀ (cat : Catalog) (base rd : String) (o : QueryOpts),
        sameIndexes (instrument_to_query cat base rd o).1 cat) := by
  refine ⟨its_pres, ?_⟩
  intro cat base rd o
  unfold instrument_to_query
  dsimp only
  split
  · exact sameIndexes_refl _
  split
  · exact sameIndexes_refl _
  split
  · exact sameIndexes_refl _
  split
  · exact sameIndexes_refl _
  exact queryFold_pres _ o _ _ _ (cat, [])

/-- C8 counterexample: listing the streams of an instrument is not read-only
on the catalog: it mutates the stored stream dictionaries (writing
`reference_designator` and the epoch fields), so the catalog observable
differs afterwards although every derived index is unchanged. -/
theorem instrument_to_streams_mutates_counterexample :
    (instrument_to_streams catEx ("GI01SUMO-RII01-02-FLORTD000")).1 ≠ catEx
    ∧ (instrument_to_streams catEx ("GI01SUMO-RII01-02-FLORTD000")).1.toc.map
        (fun kv => kv.2.streams)
      ≠ catEx.toc.map (fun kv => kv.2.streams) := by
  decide

theorem queryStep_appends (url : String) (o : QueryOpts) (b e : Option DateTime)
    (cat : Catalog) (urls : List String) (inst : String)
    (hv : validate_reference_designator inst = true) (hstream : o.stream = none) :
    queryStep url o b e (cat, urls) inst
      = ((instrument_to_streams cat inst).1,
         urls ++ pairUrls url o b e
           ((instrument_to_streams cat inst).2.map (fun s => (inst, s)))) := by
  unfold queryStep
  simp only [hv, Bool.not_true, Bool.false_eq_true, if_false, hstream]
  unfold pairUrls
  rw [List.filterMap_map]
  split_ifs with h
  · rw [List.isEmpty_iff.mp h]
    simp
  · rfl

set_option maxRecDepth 200000 in
/-- C3: per-stream failure isolation in batch URL construction.  For any
batch of (instrument, stream) pairs in which one stream reaches the time
check and fails it (`start >= end` after clamping) while every other pair
succeeds, the bad stream is skipped (`none`, never an exception — the loop
body is total), the batch output is exactly the other pairs' URLs in order,
and exactly one item is missing from the output.  Concretely, the example
catalog batch (three pairs, one degenerate stream) yields the two valid URLs. -/
theorem batch_isolation (url : String) (o : QueryOpts) (b e : Option DateTime)
    (A B : List (String × StreamRec)) (bad : String × StreamRec) (pc : PreClamp)
    (hA : ∀ p ∈ A ++ B, (processStream url (splitDashStr p.1) o b e p.2).isSome = true)
    (htc : o.time_check = true)
    (hpc : preClampData o b e bad.2 = some pc)
    (hclamp : timeCheckWindow bad.2.beginTime.raw bad.2.endTime.raw
        pc.sdt0 pc.sdt1 pc.ts0 pc.ts1 pc.dt0 pc.dt1 = none) :
    processStream url (splitDashStr bad.1) o b e bad.2 = none
    ∧ pairUrls url o b e (A ++ bad :: B) = pairUrls url o b e A ++ pairUrls url o b e B
    ∧ (pairUrls url o b e (A ++ bad :: B)).length + 1 = (A ++ bad :: B).length
    ∧ (instrument_to_query catEx ("http://uf") ("") {}).2
      = ["http://uf:12576/sensor/inv/CE01ISSM/RID16/03-CTDBPC000/telemetered/ctdbp_cdef_sample?beginDT=2016-01-01T00:00:00.000000Z&endDT=2019-01-01T00:00:00.000000Z&format=application/netcdf&limit=-1&execDPA=true&include_provenance=true&selogging=false&user=_nouser",
         "http://uf:12576/sensor/inv/GI01SUMO/RII01/02-FLORTD000/recovered_host/flort_sample?beginDT=2015-01-01T00:00:00.000000Z&endDT=2020-01-01T00:00:00.000000Z&format=application/netcdf&limit=-1&execDPA=true&include_provenance=true&selogging=false&user=_nouser"] := by
  have hbad : processStream url (splitDashStr bad.1) o b e bad.2 = none := by
    simp [processStream, hpc, htc, hclamp]
  have hsplit : pairUrls url o b e (A ++ bad :: B)
      = pairUrls url o b e A ++ pairUrls url o b e B := by
    unfold pairUrls
    rw [List.filterMap_append, List.filterMap_cons]
    simp [hbad]
  refine ⟨hbad, hsplit, ?_, by decide⟩
  have lenA : (pairUrls url o b e A).length = A.length :=
    length_filterMap_of_isSome (fun p hp => hA p (by simp [hp]))
  have lenB : (pairUrls url o b e B).length = B.length :=
    length_filterMap_of_isSome (fun p hp => hA p (by simp [hp]))
  rw [hsplit]
  simp [lenA, lenB]
  omega

set_option maxRecDepth 200000 in
theorem batch_isolation_witness :
    processStream ("http://uf:12576/sensor/inv") (splitDashStr ("CE01ISSM-RID16-03-CTDBPC000"))
        ({} : QueryOpts) none none sDegen = none
    ∧ pairUrls ("http://uf:12576/sensor/inv") ({} : QueryOpts) none none
        ([("CE01ISSM-RID16-03-CTDBPC000", sCtd)]
          ++ ("CE01ISSM-RID16-03-CTDBPC000", sDegen) :: [("GI01SUMO-RII01-02-FLORTD000", sFlort)])
      = pairUrls ("http://uf:12576/sensor/inv") ({} : QueryOpts) none none
          [("CE01ISSM-RID16-03-CTDBPC000", sCtd)]
        ++ pairUrls ("http://uf:12576/sensor/inv") ({} : QueryOpts) none none
          [("GI01SUMO-RII01-02-FLORTD000", sFlort)]
    ∧ (pairUrls ("http://uf:12576/sensor/inv") ({} : QueryOpts) none none
        ([("CE01ISSM-RID16-03-CTDBPC000", sCtd)]
          ++ ("CE01ISSM-RID16-03-CTDBPC000", sDegen) :: [("GI01SUMO-RII01-02-FLORTD000", sFlort)])).length + 1
      = ([("CE01ISSM-RID16-03-CTDBPC000", sCtd)]
          ++ ("CE01ISSM-RID16-03-CTDBPC000", sDegen) :: [("GI01SUMO-RII01-02-FLORTD000", sFlort)]).length
    ∧ (instrument_to_query catEx ("http://uf") ("") {}).2
      = ["http://uf:12576/sensor/inv/CE01ISSM/RID16/03-CTDBPC000/telemetered/ctdbp_cdef_sample?beginDT=2016-01-01T00:00:00.000000Z&endDT=2019-01-01T00:00:00.000000Z&format=application/netcdf&limit=-1&execDPA=true&include_provenance=true&selogging=false&user=_nouser",
         "http://uf:12576/sensor/inv/GI01SUMO/RII01/02-FLORTD000/recovered_host/flort_sample?beginDT=2015-01-01T00:00:00.000000Z&endDT=2020-01-01T00:00:00.000000Z&format=application/netcdf&limit=-1&execDPA=true&include_provenance=true&selogging=false&user=_nouser"] :=
  batch_isolation ("http://uf:12576/sensor/inv") ({} : QueryOpts) none none
    [("CE01ISSM-RID16-03-CTDBPC000", sCtd)] [("GI01SUMO-RII01-02-FLORTD000", sFlort)]
    ("CE01ISSM-RID16-03-CTDBPC000", sDegen)
    ⟨⟨2016, 6, 1, 0, 0, 0, 0⟩, ⟨2016, 6, 1, 0, 0, 0, 0⟩, ⟨2016, 6, 1, 0, 0, 0, 0⟩,
      ⟨2016, 6, 1, 0, 0, 0, 0⟩, ("2016-06-01T00:00:00.000000Z"), ("2016-06-01T00:00:00.000000Z")⟩
    (by decide) rfl (by decide) (by decide)

theorem isSome_bind {α β : Type} {o : Option α} {f : α → Option β}
    (h : (o >>= f).isSome = true) : ∃ a, o = some a ∧ (f a).isSome = true := by
  cases o with
  | none => simp at h
  | some a => exact ⟨a, rfl, by simpa using h⟩

theorem wordRun_eq_some {min : Nat} {cs rest : List Char} (h : wordRun min cs = some rest) :
    cs = cs.takeWhile isWordChar ++ rest ∧ min ≤ (cs.takeWhile isWordChar).length
    ∧ ∀ c ∈ cs.takeWhile isWordChar, isWordChar c = true := by
  unfold wordRun at h
  split_ifs at h with hle
  obtain rfl := Option.some.inj h
  exact ⟨(List.takeWhile_append_dropWhile isWordChar cs).symm, hle,
    fun c hc => List.mem_takeWhile_imp hc⟩

theorem dashChar_eq_some {l rest : List Char} (h : dashChar l = some rest) :
    l = '-' :: rest := by
  cases l with
  | nil => simp [dashChar] at h
  | cons c t =>
    rw [show dashChar (c :: t) = if c = '-' then some t else none from rfl] at h
    split_ifs at h with hc
    obtain rfl := Option.some.inj h
    rw [hc]

/-- C4 counterexample: `validate` accepts "AAAAAAAA-BBBBB-CC-D" (final token
of length 1: the regex's last group is `\w{1,}`, not `\w{9,}`) and accepts
"x!AAAAAAAA-BBBBB-CC-DDDDDDDDD" (it is a substring *search*, not a
whole-string decomposition), while the claim's exactly-four-tokens /
8-5-2-9-minimum predicate rejects both. -/
theorem validate_refdes_claim_counterexample :
    validate_reference_designator ("AAAAAAAA-BBBBB-CC-D") = true
    ∧ specValidate ("AAAAAAAA-BBBBB-CC-D") = false
    ∧ validate_reference_designator ("x!AAAAAAAA-BBBBB-CC-DDDDDDDDD") = true
    ∧ specValidate ("x!AAAAAAAA-BBBBB-CC-DDDDDDDDD") = false := by
  decide

/-- C4 (amended): `validate` returns true exactly when the string *contains*
(at any position, with arbitrary surrounding text) four hyphen-separated
word-character runs whose minimum lengths are 8, 5, 2 and 1 — the semantics
of `re.search` with pattern `\w{8,}\-\w{5,}\-\w{2,}\-\w{1,}`. -/
theorem validate_refdes_search_semantics (s : String) :
    validate_reference_designator s = true ↔
      ∃ pre a b c d suf,
        s.data = pre ++ a ++ '-' :: (b ++ '-' :: (c ++ '-' :: (d ++ suf)))
        ∧ WordToken a 8 ∧ WordToken b 5 ∧ WordToken c 2 ∧ WordToken d 1 := by
  unfold validate_reference_designator
  rw [List.any_eq_true]
  constructor
  · rintro ⟨t, ht, hm⟩
    rw [List.mem_tails] at ht
    obtain ⟨pre, hpre⟩ := ht
    unfold refdesAt at hm
    obtain ⟨r1, h1, hm⟩ := isSome_bind hm
    obtain ⟨r2, h2, hm⟩ := isSome_bind hm
    obtain ⟨r3, h3, hm⟩ := isSome_bind hm
    obtain ⟨r4, h4, hm⟩ := isSome_bind hm
    obtain ⟨r5, h5, hm⟩ := isSome_bind hm
    obtain ⟨r6, h6, hm⟩ := isSome_bind hm
    obtain ⟨r7, h7, _⟩ := isSome_bind hm
    obtain ⟨he1, hl1, hw1⟩ := wordRun_eq_some h1
    have hd1 := dashChar_eq_some h2
    obtain ⟨he3, hl3, hw3⟩ := wordRun_eq_some h3
    have hd2 := dashChar_eq_some h4
    obtain ⟨he5, hl5, hw5⟩ := wordRun_eq_some h5
    have hd3 := dashChar_eq_some h6
    obtain ⟨he7, hl7, hw7⟩ := wordRun_eq_some h7
    have ht : t = t.takeWhile isWordChar
        ++ '-' :: (r2.takeWhile isWordChar
          ++ '-' :: (r4.takeWhile isWordChar
            ++ '-' :: (r6.takeWhile isWordChar ++ r7))) := by
      have hx := he1
      rw [hd1] at hx
      rw [he3] at hx
      rw [hd2] at hx
      rw [he5] at hx
      rw [hd3] at hx
      rw [he7] at hx
      exact hx
    refine ⟨pre, t.takeWhile isWordChar, r2.takeWhile isWordChar, r4.takeWhile isWordChar,
      r6.takeWhile isWordChar, r7, ?_, ⟨hl1, hw1⟩, ⟨hl3, hw3⟩, ⟨hl5, hw5⟩, ⟨hl7, hw7⟩⟩
    rw [← hpre, List.append_assoc]
    congr 1
  · rintro ⟨pre, a, b, c, d, suf, heq, ⟨ha8, haw⟩, ⟨hb5, hbw⟩, ⟨hc2, hcw⟩, ⟨hd1, hdw⟩⟩
    refine ⟨a ++ '-' :: (b ++ '-' :: (c ++ '-' :: (d ++ suf))), ?_, ?_⟩
    · rw [List.mem_tails]
      refine ⟨pre, ?_⟩
      rw [← List.append_assoc]
      exact heq.symm
    · unfold refdesAt
      have e1 : wordRun 8 (a ++ '-' :: (b ++ '-' :: (c ++ '-' :: (d ++ suf))))
          = some ('-' :: (b ++ '-' :: (c ++ '-' :: (d ++ suf)))) := by
        unfold wordRun
        rw [takeWhile_all_stop _ haw (by decide), dropWhile_all_stop _ haw (by decide),
          if_pos ha8]
      have e2 : wordRun 5 (b ++ '-' :: (c ++ '-' :: (d ++ suf)))
          = some ('-' :: (c ++ '-' :: (d ++ suf))) := by
        unfold wordRun
        rw [takeWhile_all_stop _ hbw (by decide), dropWhile_all_stop _ hbw (by decide),
          if_pos hb5]
      have e3 : wordRun 2 (c ++ '-' :: (d ++ suf)) = some ('-' :: (d ++ suf)) := by
        unfold wordRun
        rw [takeWhile_all_stop _ hcw (by decide), dropWhile_all_stop _ hcw (by decide),
          if_pos hc2]
      have e4 : 1 ≤ ((d ++ suf).takeWhile isWordChar).length := by
        rw [takeWhile_all_append _ hdw, List.length_append]
        omega
      have e5 : wordRun 1 (d ++ suf) = some ((d ++ suf).dropWhile isWordChar) := by
        unfold wordRun
        rw [if_pos e4]
      simp [e1, e2, e3, e5, dashChar]

theorem validate_refdes_search_semantics_witness :
    validate_reference_designator ("GI01SUMO-RII01-02-FLORTD000") = true :=
  (validate_refdes_search_semantics ("GI01SUMO-RII01-02-FLORTD000")).mpr
    ⟨[], ("GI01SUMO").data, ("RII01").data, ("02").data, ("FLORTD000").data, [],
      by decide, ⟨by decide, by decide⟩, ⟨by decide, by decide⟩,
      ⟨by decide, by decide⟩, ⟨by decide, by decide⟩⟩

theorem strData_append (a b : String) : (a ++ b).data = a.data ++ b.data := rfl

theorem afterQ_append (l₁ l₂ : List Char) (h : '?' ∉ l₁) :
    afterQ (l₁ ++ '?' :: l₂) = l₂ := by
  induction l₁ with
  | nil => simp [afterQ]
  | cons a t ih =>
    have ha : ¬(a = '?') := by
      rintro rfl
      exact h (by simp)
    simp only [List.cons_append, afterQ]
    rw [if_neg ha]
    exact ih (fun hc => h (List.mem_cons_of_mem _ hc))

theorem splitOnCharL_ne_nil (c : Char) (l : List Char) : splitOnCharL c l ≠ [] := by
  induction l with
  | nil => simp [splitOnCharL]
  | cons a t ih =>
    simp only [splitOnCharL]
    split_ifs
    · simp
    · rcases hs : splitOnCharL c t with _ | ⟨h1, r⟩
      · exact absurd hs ih
      · simp

theorem splitOnCharL_not_mem (c : Char) (l : List Char) (h : c ∉ l) :
    splitOnCharL c l = [l] := by
  induction l with
  | nil => rfl
  | cons a t ih =>
    have ha : ¬(a = c) := by
      rintro rfl
      exact h (by simp)
    simp only [splitOnCharL]
    rw [if_neg ha, ih (fun hc => h (List.mem_cons_of_mem _ hc))]

theorem splitOnCharL_append (c : Char) (l₁ l₂ : List Char) (h : c ∉ l₁) :
    splitOnCharL c (l₁ ++ c :: l₂) = l₁ :: splitOnCharL c l₂ := by
  induction l₁ with
  | nil => simp [splitOnCharL]
  | cons a t ih =>
    have ha : ¬(a = c) := by
      rintro rfl
      exact h (by simp)
    simp only [List.cons_append, splitOnCharL]
    rw [if_neg ha]
    have hrec := ih (fun hc => h (List.mem_cons_of_mem _ hc))
    simp [hrec]

theorem natDecAux_digits : ∀ (fuel n : Nat) (c : Char), c ∈ natDecAux fuel n →
    48 ≤ c.toNat ∧ c.toNat ≤ 57 := by
  intro fuel
  induction fuel with
  | zero =>
    intro n c h
    simp [natDecAux] at h
  | succ f ih =>
    intro n c h
    simp only [natDecAux] at h
    split_ifs at h with h10
    · simp only [List.mem_singleton] at h
      subst h
      interval_cases n <;> decide
    · rcases List.mem_append.mp h with h' | h'
      · exact ih _ _ h'
      · simp only [List.mem_singleton] at h'
        subst h'
        have hm : n % 10 < 10 := Nat.mod_lt _ (by omega)
        set m := n % 10 with hdef
        interval_cases m <;> decide

theorem intDec_no_amp_eq (i : Int) (c : Char) (hc : c ∈ (intDec i).data) :
    c ≠ '&' ∧ c ≠ '=' ∧ c ≠ '?' := by
  unfold intDec at hc
  split_ifs at hc
  · rw [strData_append] at hc
    rcases List.mem_append.mp hc with h' | h'
    · simp only [show ("-" : String).data = ['-'] from rfl, List.mem_singleton] at h'
      subst h'
      refine ⟨by decide, by decide, by decide⟩
    · have := natDecAux_digits 20 _ c h'
      refine ⟨?_, ?_, ?_⟩ <;> (rintro rfl; revert this; decide)
  · have := natDecAux_digits 20 _ c hc
    refine ⟨?_, ?_, ?_⟩ <;> (rintro rfl; revert this; decide)

theorem pyBool_no_amp (b : Bool) (c : Char) (hc : c ∈ (pyBool b).data) :
    c ≠ '&' ∧ c ≠ '=' ∧ c ≠ '?' := by
  cases b
  · simp only [pyBool, Bool.false_eq_true, if_false,
      show ("false" : String).data = ['f', 'a', 'l', 's', 'e'] from rfl,
      List.mem_cons, List.not_mem_nil, or_false] at hc
    rcases hc with rfl | rfl | rfl | rfl | rfl <;> exact ⟨by decide, by decide, by decide⟩
  · simp only [pyBool, if_true,
      show ("true" : String).data = ['t', 'r', 'u', 'e'] from rfl,
      List.mem_cons, List.not_mem_nil, or_false] at hc
    rcases hc with rfl | rfl | rfl | rfl <;> exact ⟨by decide, by decide, by decide⟩

theorem splitOnCharL_mkQuery :
    ∀ l : List (List Char × List Char), l ≠ [] →
    (∀ kv ∈ l, '&' ∉ kv.1 ∧ '=' ∉ kv.1 ∧ '&' ∉ kv.2) →
    (splitOnCharL '&' (mkQuery l)).map
        (fun kv => String.mk (kv.takeWhile (fun c => c ≠ '=')))
      = l.map (fun kv => String.mk kv.1) := by
  intro l
  induction l with
  | nil => intro h; exact absurd rfl h
  | cons kv t ih =>
    intro _ hall
    have h1 := hall kv (by simp)
    have hkey : ∀ c ∈ kv.1, (fun c => decide (c ≠ '=')) c = true := by
      intro c hc
      simp only [decide_eq_true_eq]
      rintro rfl
      exact h1.2.1 hc
    cases t with
    | nil =>
      simp only [mkQuery]
      rw [splitOnCharL_not_mem]
      · simp only [List.map]
        rw [takeWhile_all_stop _ hkey (by decide)]
      · intro hmem
        rcases List.mem_append.mp hmem with h' | h'
        · exact h1.1 h'
        · rcases List.mem_cons.mp h' with h'' | h''
          · exact absurd h'' (by decide)
          · exact h1.2.2 h''
    | cons x t2 =>
      have hshape : mkQuery (kv :: x :: t2)
          = (kv.1 ++ '=' :: kv.2) ++ '&' :: mkQuery (x :: t2) := by
        simp only [mkQuery, List.append_assoc, List.cons_append]
      rw [hshape, splitOnCharL_append]
      · simp only [List.map]
        rw [takeWhile_all_stop _ hkey (by decide)]
        have hrec := ih (by simp) (fun p hp => hall p (List.mem_cons_of_mem _ hp))
        simpa using hrec
      · intro hmem
        rcases List.mem_append.mp hmem with h' | h'
        · exact h1.1 h'
        · rcases List.mem_cons.mp h' with h'' | h''
          · exact absurd h'' (by decide)
          · exact h1.2.2 h''

/-- C7 counterexample: a request URL built with no email option and no
explicit user still carries the query keys `selogging` and `user` (the format
string at line 638 includes both unconditionally, `user` defaulting to
`_nouser`), so the parameter set is not "exactly beginDT, endDT, format,
limit, execDPA and include_provenance with user/email only when present". -/
theorem query_url_selogging_counterexample :
    queryKeys (buildStreamUrl ("http://uf:12576/sensor/inv")
        ["GI01SUMO", "RII01", "02", "FLORTD000"] ("recovered_host") ("flort_sample")
        ("2019-12-02T00:00:00.000000Z") ("2020-01-01T00:00:00.000000Z") {})
      = ["beginDT", "endDT", "format", "limit", "execDPA", "include_provenance",
         "selogging", "user"]
    ∧ ("selogging" : String)
        ∉ ["beginDT", "endDT", "format", "limit", "execDPA", "include_provenance"]
    ∧ ("user" : String)
        ∉ ["beginDT", "endDT", "format", "limit", "execDPA", "include_provenance"] := by
  decide

/-- C7 (amended): for every built request URL (with delimiter-free parameter
values and a `?`-free path), the query-parameter keys are exactly `beginDT`,
`endDT`, `format`, `limit`, `execDPA`, `include_provenance`, `selogging` and
`user` — the last two unconditionally — with `email` appended exactly when
the email option is present. -/
theorem query_url_parameter_shape (url rt0 rt1 rt2 rt3 method stream ts0 ts1 : String)
    (o : QueryOpts)
    (hqu : '?' ∉ url.data) (hq0 : '?' ∉ rt0.data) (hq1 : '?' ∉ rt1.data)
    (hq2 : '?' ∉ rt2.data) (hq3 : '?' ∉ rt3.data) (hqm : '?' ∉ method.data)
    (hqs : '?' ∉ stream.data) (hv0 : '&' ∉ ts0.data) (hv1 : '&' ∉ ts1.data)
    (hva : '&' ∉ o.application_type.data) (hvu : '&' ∉ o.user.data)
    (hve : ∀ em, o.email = some em → '&' ∉ em.data) :
    queryKeys (buildStreamUrl url [rt0, rt1, rt2, rt3] method stream ts0 ts1 o)
      = ["beginDT", "endDT", "format", "limit", "execDPA", "include_provenance",
         "selogging", "user"]
        ++ (match o.email with | some _ => ["email"] | none => []) := by
  have hP : '?' ∉ (url.data ++ '/' :: (rt0.data ++ '/' :: (rt1.data ++ '/' :: (rt2.data
      ++ '-' :: (rt3.data ++ '/' :: (method.data ++ '/' :: stream.data)))))) := by
    simp only [List.mem_append, List.mem_cons, not_or]
    exact ⟨hqu, by decide, hq0, by decide, hq1, by decide, hq2, by decide, hq3,
      by decide, hqm, by decide, hqs⟩
  rcases he : o.email with _ | em
  · have hk : (buildStreamUrl url [rt0, rt1, rt2, rt3] method stream ts0 ts1 o).data
        = (url.data ++ '/' :: (rt0.data ++ '/' :: (rt1.data ++ '/' :: (rt2.data
            ++ '-' :: (rt3.data ++ '/' :: (method.data ++ '/' :: stream.data))))))
          ++ '?' :: mkQuery
            [(("beginDT").data, ts0.data),
             (("endDT").data, ts1.data),
             (("format").data, ("application/").data ++ o.application_type.data),
             (("limit").data, (intDec o.limit).data),
             (("execDPA").data, (pyBool o.exec_dpa).data),
             (("include_provenance").data, (pyBool o.provenance).data),
             (("selogging").data, (pyBool o.selogging).data),
             (("user").data, o.user.data)] := by
      simp [buildStreamUrl, he, strData_append, mkQuery, List.append_assoc,
        List.getD_cons_zero, List.getD_cons_succ, List.singleton_append,
        show ("?" : String).data = ['?'] from rfl,
        show ("&" : String).data = ['&'] from rfl,
        show ("=" : String).data = ['='] from rfl,
        show ("/" : String).data = ['/'] from rfl,
        show ("-" : String).data = ['-'] from rfl,
        show ("" : String).data = ([] : List Char) from rfl]
    have hkvs : ∀ kv ∈
        [(("beginDT").data, ts0.data),
         (("endDT").data, ts1.data),
         (("format").data, ("application/").data ++ o.application_type.data),
         (("limit").data, (intDec o.limit).data),
         (("execDPA").data, (pyBool o.exec_dpa).data),
         (("include_provenance").data, (pyBool o.provenance).data),
         (("selogging").data, (pyBool o.selogging).data),
         (("user").data, o.user.data)],
        '&' ∉ kv.1 ∧ '=' ∉ kv.1 ∧ '&' ∉ kv.2 := by
      intro kv hkv
      simp only [List.mem_cons, List.not_mem_nil, or_false] at hkv
      rcases hkv with rfl | rfl | rfl | rfl | rfl | rfl | rfl | rfl
      · exact ⟨by dsimp only; decide, by dsimp only; decide, hv0⟩
      · exact ⟨by dsimp only; decide, by dsimp only; decide, hv1⟩
      · refine ⟨by dsimp only; decide, by dsimp only; decide, ?_⟩
        intro hmem
        rcases List.mem_append.mp hmem with h' | h'
        · revert h'
          decide
        · exact hva h'
      · exact ⟨by dsimp only; decide, by dsimp only; decide,
          fun hmem => (intDec_no_amp_eq o.limit '&' hmem).1 rfl⟩
      · exact ⟨by dsimp only; decide, by dsimp only; decide,
          fun hmem => (pyBool_no_amp o.exec_dpa '&' hmem).1 rfl⟩
      · exact ⟨by dsimp only; decide, by dsimp only; decide,
          fun hmem => (pyBool_no_amp o.provenance '&' hmem).1 rfl⟩
      · exact ⟨by dsimp only; decide, by dsimp only; decide,
          fun hmem => (pyBool_no_amp o.selogging '&' hmem).1 rfl⟩
      · exact ⟨by dsimp only; decide, by dsimp only; decide, hvu⟩
    have hmq := splitOnCharL_mkQuery _ (by simp) hkvs
    unfold queryKeys
    rw [hk, afterQ_append _ _ hP, hmq]
    simp
  · have hk : (buildStreamUrl url [rt0, rt1, rt2, rt3] method stream ts0 ts1 o).data
        = (url.data ++ '/' :: (rt0.data ++ '/' :: (rt1.data ++ '/' :: (rt2.data
            ++ '-' :: (rt3.data ++ '/' :: (method.data ++ '/' :: stream.data))))))
          ++ '?' :: mkQuery
            [(("beginDT").data, ts0.data),
             (("endDT").data, ts1.data),
             (("format").data, ("application/").data ++ o.application_type.data),
             (("limit").data, (intDec o.limit).data),
             (("execDPA").data, (pyBool o.exec_dpa).data),
             (("include_provenance").data, (pyBool o.provenance).data),
             (("selogging").data, (pyBool o.selogging).data),
             (("user").data, o.user.data),
             (("email").data, em.data)] := by
      simp [buildStreamUrl, he, strData_append, mkQuery, List.append_assoc,
        List.getD_cons_zero, List.getD_cons_succ, List.singleton_append,
        show ("?" : String).data = ['?'] from rfl,
        show ("&" : String).data = ['&'] from rfl,
        show ("=" : String).data = ['='] from rfl,
        show ("/" : String).data = ['/'] from rfl,
        show ("-" : String).data = ['-'] from rfl,
        show ("" : String).data = ([] : List Char) from rfl]
    have hkvs : ∀ kv ∈
        [(("beginDT").data, ts0.data),
         (("endDT").data, ts1.data),
         (("format").data, ("application/").data ++ o.application_type.data),
         (("limit").data, (intDec o.limit).data),
         (("execDPA").data, (pyBool o.exec_dpa).data),
         (("include_provenance").data, (pyBool o.provenance).data),
         (("selogging").data, (pyBool o.selogging).data),
         (("user").data, o.user.data),
         (("email").data, em.data)],
        '&' ∉ kv.1 ∧ '=' ∉ kv.1 ∧ '&' ∉ kv.2 := by
      intro kv hkv
      simp only [List.mem_cons, List.not_mem_nil, or_false] at hkv
      rcases hkv with rfl | rfl | rfl | rfl | rfl | rfl | rfl | rfl | rfl
      · exact ⟨by dsimp only; decide, by dsimp only; decide, hv0⟩
      · exact ⟨by dsimp only; decide, by dsimp only; decide, hv1⟩
      · refine ⟨by dsimp only; decide, by dsimp only; decide, ?_⟩
        intro hmem
        rcases List.mem_append.mp hmem with h' | h'
        · revert h'
          decide
        · exact hva h'
      · exact ⟨by dsimp only; decide, by dsimp only; decide,
          fun hmem => (intDec_no_amp_eq o.limit '&' hmem).1 rfl⟩
      · exact ⟨by dsimp only; decide, by dsimp only; decide,
          fun hmem => (pyBool_no_amp o.exec_dpa '&' hmem).1 rfl⟩
      · exact ⟨by dsimp only; decide, by dsimp only; decide,
          fun hmem => (pyBool_no_amp o.provenance '&' hmem).1 rfl⟩
      · exact ⟨by dsimp only; decide, by dsimp only; decide,
          fun hmem => (pyBool_no_amp o.selogging '&' hmem).1 rfl⟩
      · exact ⟨by dsimp only; decide, by dsimp only; decide, hvu⟩
      · exact ⟨by dsimp only; decide, by dsimp only; decide, hve em he⟩
    have hmq := splitOnCharL_mkQuery _ (by simp) hkvs
    unfold queryKeys
    rw [hk, afterQ_append _ _ hP, hmq]
    simp

theorem query_url_parameter_shape_witness :
    queryKeys (buildStreamUrl ("http://uf:12576/sensor/inv")
        ["GI01SUMO", "RII01", "02", "FLORTD000"] ("recovered_host") ("flort_sample")
        ("2019-12-02T00:00:00.000000Z") ("2020-01-01T00:00:00.000000Z")
        { email := some ("who@example.org") })
      = ["beginDT", "endDT", "format", "limit", "execDPA", "include_provenance",
         "selogging", "user"] ++ ["email"] :=
  query_url_parameter_shape ("http://uf:12576/sensor/inv") ("GI01SUMO") ("RII01")
    ("02") ("FLORTD000") ("recovered_host") ("flort_sample")
    ("2019-12-02T00:00:00.000000Z") ("2020-01-01T00:00:00.000000Z")
    { email := some ("who@example.org") }
    (by decide) (by decide) (by decide) (by decide) (by decide) (by decide)
    (by decide) (by decide) (by decide) (by decide) (by decide)
    (fun em hem => by
      rw [← Option.some.inj hem]
      decide)
